import Mathlib

/-!
Verification development for the sandwich-swap Solana program
(programs/sandwich-swap/src). The instruction handlers are shallowly embedded:
machine integers become natural numbers with the Rust release-mode overflow
semantics made explicit (wrapping, saturating and checked operations are
separate helper functions), fallible code returns an explicit result type, and
cross-program invocations are represented by the token balances observed
around them, which the handlers receive as inputs. The two closed-form
planners, written in f64 in the source, are modelled in exact real arithmetic.
-/

namespace SandwichSwap

/-- Bound of the u64 type. -/
def U64 : Nat := 2 ^ 64

/-- Bound of the u128 type. -/
def U128 : Nat := 2 ^ 128

/-- Rust saturating_mul on u64. -/
def satMul64 (a b : Nat) : Nat := min (a * b) (U64 - 1)

/-- Rust saturating_mul on u128. -/
def satMul128 (a b : Nat) : Nat := min (a * b) (U128 - 1)

/-- Rust saturating_add on u64. -/
def satAdd64 (a b : Nat) : Nat := min (a + b) (U64 - 1)

/-- Rust saturating_add on u128. -/
def satAdd128 (a b : Nat) : Nat := min (a + b) (U128 - 1)

/-- Rust wrapping (release-mode) subtraction on u64; both arguments are u64 values.
Rust saturating_sub is the truncated subtraction of Nat and needs no helper. -/
def wsub64 (a b : Nat) : Nat := (a + U64 - b) % U64

/-- Rust wrapping (release-mode) subtraction on u128. -/
def wsub128 (a b : Nat) : Nat := (a + U128 - b) % U128

/-- Rust wrapping (release-mode) multiplication on u64. -/
def wmul64 (a b : Nat) : Nat := a * b % U64

/-- Rust wrapping (release-mode) multiplication on u128. -/
def wmul128 (a b : Nat) : Nat := a * b % U128

/-- Rust checked_mul on u64. -/
def checkedMul64 (a b : Nat) : Option Nat := if a * b < U64 then some (a * b) else none

/-- Rust checked_mul on u128. -/
def checkedMul128 (a b : Nat) : Option Nat := if a * b < U128 then some (a * b) else none

/-- Rust wrapping left shift by 64 bits on u128. -/
def shl64w (a : Nat) : Nat := a * 2 ^ 64 % U128

/-- Ceiling division on Nat, used where the source rounds a quotient up. -/
def cdiv (a b : Nat) : Nat := (a + b - 1) / b

/-- Modelled from the spec: the error taxonomy of spec section 7. The module
src/error.rs is absent from src/; the variant names are fixed by the spec and by
the err! call sites of the instruction handlers, which also use InvalidInput. -/
inductive ErrorCode where
  | ExceededSlippage
  | UnprofitableSandwich
  | InsufficientSandwichAmount
  | CalculationFailure
  | InvalidVault
  | EmptySupply
  | TokenMintMismatch
  | SandwichAlreadyCompleted
  | InvalidInput
  deriving DecidableEq, Repr

/-- Failure of an instruction: a typed program error from ErrorCode, a Rust panic
(unwrap of None, division by zero), or an Anchor or system failure that does not
surface as this program's ErrorCode (require_gt, account re-initialization). Any
failure aborts the transaction, so no account data is written on a failure path. -/
inductive Fail where
  | code (e : ErrorCode)
  | panic
  | anchor
  deriving DecidableEq, Repr

/-- Persisted sandwich coordination record (src/sandwich_state.rs). Pubkeys are
modelled as opaque natural-number identifiers. The 64-byte target transaction
signature field is never read or written by any handler and is omitted. -/
structure SandwichState where
  frontrun_output_amount : Nat
  frontrun_input_amount : Nat
  sandwich_id : Nat
  is_complete : Bool
  token_in_mint : Nat
  token_out_mint : Nat
  timestamp : Int
  bump : Nat
  deriving DecidableEq, Repr

/-- Zero-initialized record, the account data Anchor presents to a handler when
init or init_if_needed has just created the account. -/
def SandwichState.zeroed : SandwichState :=
  { frontrun_output_amount := 0
    frontrun_input_amount := 0
    sandwich_id := 0
    is_complete := false
    token_in_mint := 0
    token_out_mint := 0
    timestamp := 0
    bump := 0 }

/-- Completion event payload (src/sandwich_state.rs). -/
structure SandwichCompleteEvent where
  sandwich_id : Nat
  profit : Nat
  input_amount : Nat
  output_amount : Nat
  timestamp : Int
  deriving DecidableEq, Repr

/-- Result of a quote by the Raydium CPMM curve calculator. -/
structure SwapResult where
  source_amount_swapped : Nat
  destination_amount_swapped : Nat
  deriving DecidableEq, Repr

namespace CurveCalculator

/-- Modelled from the spec: CurveCalculator.swap_base_input of the module
src/instructions/raydium/cpmm/curve.rs, which is absent from src/. Per spec
section 4.1 the FeeTieredConstantProduct curve sums the trade, protocol and fund
fee rates (denominated in hundredths of a basis point, 1000000 = 100 percent),
charges the sum on the input, applies the constant-product output formula, and
rejects, surfaced as CalculationFailure, any input that drives a reserve to zero
or negative or overflows a 128-bit intermediate product. -/
def swap_base_input (amount_in reserve_in reserve_out
    trade_fee_rate protocol_fee_rate fund_fee_rate : Nat) : Option SwapResult :=
  let feeRate := trade_fee_rate + protocol_fee_rate + fund_fee_rate
  if feeRate ≥ 1000000 then none
  else if reserve_in = 0 ∨ reserve_out = 0 then none
  else
    let fee := cdiv (amount_in * feeRate) 1000000
    let amountLessFee := amount_in - fee
    if amountLessFee * reserve_out ≥ U128 then none
    else some { source_amount_swapped := amount_in,
                destination_amount_swapped :=
                  amountLessFee * reserve_out / (reserve_in + amountLessFee) }

/-- Modelled from the spec: CurveCalculator.swap_base_output of the absent module
src/instructions/raydium/cpmm/curve.rs. The inverse quote: the gross input that
buys exactly amount_out under the summed fee rates, rounded up, rejecting any
request that would empty a reserve or overflow a 128-bit intermediate. -/
def swap_base_output (amount_out reserve_in reserve_out
    trade_fee_rate protocol_fee_rate fund_fee_rate : Nat) : Option SwapResult :=
  let feeRate := trade_fee_rate + protocol_fee_rate + fund_fee_rate
  if feeRate ≥ 1000000 then none
  else if reserve_in = 0 ∨ amount_out ≥ reserve_out then none
  else
    let rawIn := cdiv (amount_out * reserve_in) (reserve_out - amount_out)
    if rawIn * 1000000 ≥ U128 then none
    else some { source_amount_swapped := cdiv (rawIn * 1000000) (1000000 - feeRate),
                destination_amount_swapped := amount_out }

end CurveCalculator

/-- Modelled from the spec: Fees.protocol_fee of the absent curve module, used by
pumpswap/sell.rs to net a vault balance; a pro-rata fee floor(amount times rate
over 1000000), which never exceeds the amount, so the checked subtraction at the
call site cannot fail. -/
def Fees.protocol_fee (amount fee_rate : Nat) : Option Nat :=
  some (amount * fee_rate / 1000000)

/-- Vault balances net of the accrued protocol and fund fees
(vault_amount_without_fee in raydium/cpmm/swap_base_input.rs). The checked_sub
with unwrap panics when the accrued fees exceed the vault balance. -/
def vault_amount_without_fee (protocolFees0 fundFees0 protocolFees1 fundFees1
    vault0 vault1 : Nat) : Except Fail (Nat × Nat) :=
  if protocolFees0 + fundFees0 ≤ vault0 ∧ protocolFees1 + fundFees1 ≤ vault1 then
    .ok (vault0 - (protocolFees0 + fundFees0), vault1 - (protocolFees1 + fundFees1))
  else .error .panic

/-- Helper for calculate_expected_output in raydium/cpmm/swap_base_input.rs: quote
the forward swap with the curve calculator and narrow the output to u64, turning
a failed quote or narrowing into CalculationFailure. -/
def calculate_expected_output (amount_in reserve_in reserve_out
    trade_fee_rate protocol_fee_rate fund_fee_rate : Nat) : Except Fail Nat :=
  match CurveCalculator.swap_base_input amount_in reserve_in reserve_out
      trade_fee_rate protocol_fee_rate fund_fee_rate with
  | none => .error (.code .CalculationFailure)
  | some r =>
      if r.destination_amount_swapped < U64 then .ok r.destination_amount_swapped
      else .error (.code .CalculationFailure)

/-- Body of the bounded binary search of calculate_optimal_sandwich_amount in
raydium/cpmm/swap_base_input.rs (the identical function in pumpswap/sell.rs is a
verbatim copy and is modelled by this same definition). The fuel argument is the
fixed 20-iteration budget; low, high, best and bestProfit are the u128 loop
variables; the result is the pair (best_amount, best_profit) on loop exit.
A failed curve quote propagates as CalculationFailure; a zero simulated
pre-attack victim output makes the price-impact division panic. -/
def cpmm_search_loop (trade_fee_rate protocol_fee_rate fund_fee_rate
    reserve_in reserve_out safe_slippage_bps target_amount_in : Nat) :
    Nat → Nat → Nat → Nat → Nat → Except Fail (Nat × Nat)
  | 0, _, _, best, bestProfit => .ok (best, bestProfit)
  | fuel + 1, low, high, best, bestProfit =>
    if low ≥ high then .ok (best, bestProfit)
    else
      let mid := (low + high) / 2
      match CurveCalculator.swap_base_input mid reserve_in reserve_out
          trade_fee_rate protocol_fee_rate fund_fee_rate with
      | none => .error (.code .CalculationFailure)
      | some fr =>
        let frontrun_output := fr.destination_amount_swapped
        let new_reserve_in := reserve_in + fr.source_amount_swapped
        let new_reserve_out := wsub128 reserve_out frontrun_output
        match CurveCalculator.swap_base_input target_amount_in reserve_in reserve_out
            trade_fee_rate protocol_fee_rate fund_fee_rate with
        | none => .error (.code .CalculationFailure)
        | some tb =>
          match CurveCalculator.swap_base_input target_amount_in new_reserve_in
              new_reserve_out trade_fee_rate protocol_fee_rate fund_fee_rate with
          | none => .error (.code .CalculationFailure)
          | some ta =>
            let outBefore := tb.destination_amount_swapped
            let outAfter := ta.destination_amount_swapped
            if outBefore = 0 then .error .panic
            else
              let price_impact_bps := wmul128 (wsub128 outBefore outAfter) 10000 / outBefore
              if price_impact_bps ≤ safe_slippage_bps then
                let after_target_reserve_in := new_reserve_in + target_amount_in
                let after_target_reserve_out := wsub128 new_reserve_out outAfter
                match CurveCalculator.swap_base_input frontrun_output
                    after_target_reserve_out after_target_reserve_in
                    trade_fee_rate protocol_fee_rate fund_fee_rate with
                | none => .error (.code .CalculationFailure)
                | some br =>
                  let profit := br.destination_amount_swapped - mid
                  let best2 := if profit > bestProfit then mid else best
                  let bestProfit2 := if profit > bestProfit then profit else bestProfit
                  if profit > 0 then
                    cpmm_search_loop trade_fee_rate protocol_fee_rate fund_fee_rate
                      reserve_in reserve_out safe_slippage_bps target_amount_in
                      fuel (mid + 1) high best2 bestProfit2
                  else
                    cpmm_search_loop trade_fee_rate protocol_fee_rate fund_fee_rate
                      reserve_in reserve_out safe_slippage_bps target_amount_in
                      fuel low (mid - 1) best2 bestProfit2
              else
                cpmm_search_loop trade_fee_rate protocol_fee_rate fund_fee_rate
                  reserve_in reserve_out safe_slippage_bps target_amount_in
                  fuel low (mid - 1) best bestProfit

/-- Optimizer of raydium/cpmm/swap_base_input.rs (calculate_optimal_sandwich_amount):
runs the 20-round search from low 1, high reserve_in over 10, starting best
reserve_in over 100 with zero best profit, then narrows the best amount to u64
with unwrap_or(u64 MAX). -/
def calculate_optimal_sandwich_amount (reserve_in reserve_out safe_slippage_bps
    _target_amount_in target_actual_amount_in
    trade_fee_rate protocol_fee_rate fund_fee_rate : Nat) : Except Fail Nat := do
  let initial_estimate := reserve_in / 100
  let max_amount := reserve_in / 10
  let r ← cpmm_search_loop trade_fee_rate protocol_fee_rate fund_fee_rate
    reserve_in reserve_out safe_slippage_bps target_actual_amount_in
    20 1 max_amount initial_estimate 0
  pure (if r.1 < U64 then r.1 else U64 - 1)

/-- Helper calculate_minimum_out_for_sandwich of raydium/cpmm/swap_base_input.rs:
the expected output with an aggressive five percent slippage allowance. -/
def calculate_minimum_out_for_sandwich (amount_in reserve_in reserve_out
    trade_fee_rate protocol_fee_rate fund_fee_rate : Nat) : Except Fail Nat := do
  let expected ← calculate_expected_output amount_in reserve_in reserve_out
    trade_fee_rate protocol_fee_rate fund_fee_rate
  pure (satMul64 expected 95 / 100)

/-- Inputs of the planning phase of the CPMM sandwich handlers. Pubkeys are opaque
naturals; the token-2022 transfer fees of the two mints are read from external
mint accounts and enter the model as given values. -/
structure CpmmArgs where
  token_0_vault : Nat
  token_1_vault : Nat
  input_vault_key : Nat
  output_vault_key : Nat
  input_vault_amount : Nat
  output_vault_amount : Nat
  protocol_fees_token_0 : Nat
  fund_fees_token_0 : Nat
  protocol_fees_token_1 : Nat
  fund_fees_token_1 : Nat
  trade_fee_rate : Nat
  protocol_fee_rate : Nat
  fund_fee_rate : Nat
  deriving DecidableEq, Repr

/-- Direction resolution shared by the CPMM handlers: matches the passed vaults
against the pool's two vaults and orients the net reserves, failing with
InvalidVault on any other pairing (raydium/cpmm/swap_base_input.rs). -/
def cpmm_resolve_reserves (a : CpmmArgs) : Except Fail (Nat × Nat) :=
  if a.input_vault_key = a.token_0_vault ∧ a.output_vault_key = a.token_1_vault then do
    let v ← vault_amount_without_fee a.protocol_fees_token_0 a.fund_fees_token_0
      a.protocol_fees_token_1 a.fund_fees_token_1 a.input_vault_amount a.output_vault_amount
    .ok (v.1, v.2)
  else if a.input_vault_key = a.token_1_vault ∧ a.output_vault_key = a.token_0_vault then do
    let v ← vault_amount_without_fee a.protocol_fees_token_0 a.fund_fees_token_0
      a.protocol_fees_token_1 a.fund_fees_token_1 a.output_vault_amount a.input_vault_amount
    .ok (v.2, v.1)
  else .error (.code .InvalidVault)

/-- Planning context of cpmm_frontrun_swap_base_input: resolved reserves, the
victim amount net of its transfer fee, and the safety-scaled slippage ceiling.
Follows raydium/cpmm/swap_base_input.rs up to the optimizer call. -/
def cpmm_plan_context (a : CpmmArgs) (target_amount_in target_minimum_amount_out
    target_transfer_fee : Nat) : Except Fail (Nat × Nat × Nat × Nat) := do
  let r ← cpmm_resolve_reserves a
  let target_actual_amount_in := target_amount_in - target_transfer_fee
  let expected ← calculate_expected_output target_actual_amount_in r.1 r.2
    a.trade_fee_rate a.protocol_fee_rate a.fund_fee_rate
  if expected > 0 then
    let target_slippage_bps := (expected - target_minimum_amount_out) * 10000 / expected
    let safe_slippage_bps := satMul128 target_slippage_bps 95 / 100
    .ok (r.1, r.2, target_actual_amount_in, safe_slippage_bps)
  else .error (.code .CalculationFailure)

/-- Plan produced by a CPMM front-run handler: the swap amount it executes and
the minimum-out (respectively maximum-in) limit it attaches. -/
structure CpmmPlan where
  amount : Nat
  limit : Nat
  deriving DecidableEq, Repr

/-- Planning phase of cpmm_frontrun_swap_base_input in
raydium/cpmm/swap_base_input.rs: context, optimizer, the dust-floor gate at 100
base units, and the limit for the executed swap. The subsequent CPI and the
sandwich-state write occur only when this phase succeeds. -/
def cpmm_frontrun_plan (a : CpmmArgs) (target_amount_in target_minimum_amount_out
    target_transfer_fee : Nat) : Except Fail CpmmPlan := do
  let c ← cpmm_plan_context a target_amount_in target_minimum_amount_out target_transfer_fee
  let optimal_buy_amount ← calculate_optimal_sandwich_amount c.1 c.2.1 c.2.2.2
    target_amount_in c.2.2.1 a.trade_fee_rate a.protocol_fee_rate a.fund_fee_rate
  if optimal_buy_amount < 100 then .error (.code .InsufficientSandwichAmount)
  else do
    let minimum_out ← calculate_minimum_out_for_sandwich optimal_buy_amount c.1 c.2.1
      a.trade_fee_rate a.protocol_fee_rate a.fund_fee_rate
    .ok { amount := optimal_buy_amount, limit := minimum_out }

/-- Handler cpmm_frontrun_swap_base_input of raydium/cpmm/swap_base_input.rs. The
sandwich-state account is created with init, so no prior record exists. The CPI
outcome is represented by the output token balances observed before and after
it; on success every field of the fresh record is written, with is_complete set
to false. -/
def cpmm_frontrun_swap_base_input (a : CpmmArgs)
    (target_amount_in target_minimum_amount_out target_transfer_fee : Nat)
    (sandwich_id : Nat) (output_balance_before output_balance_after : Nat)
    (input_mint output_mint : Nat) (now : Int) (bump : Nat) :
    Except Fail (CpmmPlan × SandwichState) := do
  let plan ← cpmm_frontrun_plan a target_amount_in target_minimum_amount_out
    target_transfer_fee
  .ok (plan,
    { frontrun_output_amount := output_balance_after - output_balance_before
      frontrun_input_amount := plan.amount
      sandwich_id
      is_complete := false
      token_in_mint := input_mint
      token_out_mint := output_mint
      timestamp := now
      bump })

/-- Handler cpmm_backrun_swap_base_input of raydium/cpmm/swap_base_input.rs.
Anchor account constraints run first: a completed record fails with
SandwichAlreadyCompleted, and the recorded mints must match the presented
output and input mints (the direction is reversed relative to the front-run),
else TokenMintMismatch. The body then re-resolves reserves, quotes the back-run,
enforces the 0.5 percent minimum profit floor, and on CPI success marks the
record complete and reports profit from the output balance delta. -/
def cpmm_backrun_swap_base_input (st : SandwichState) (a : CpmmArgs)
    (presented_input_mint presented_output_mint : Nat)
    (output_balance_before output_balance_after : Nat)
    (sandwich_id : Nat) (now : Int) :
    Except Fail (SandwichState × SandwichCompleteEvent) := do
  if st.is_complete then .error (.code .SandwichAlreadyCompleted)
  else if st.token_in_mint ≠ presented_output_mint then .error (.code .TokenMintMismatch)
  else if st.token_out_mint ≠ presented_input_mint then .error (.code .TokenMintMismatch)
  else do
    let r ← cpmm_resolve_reserves a
    let expected ← calculate_expected_output st.frontrun_output_amount r.1 r.2
      a.trade_fee_rate a.protocol_fee_rate a.fund_fee_rate
    let minRequired ←
      match checkedMul64 st.frontrun_input_amount 1005 with
      | none => .error (.code .CalculationFailure)
      | some v => .ok (v / 1000)
    let minimum_backrun_output := max (satMul64 expected 98 / 100) minRequired
    if minimum_backrun_output ≤ st.frontrun_input_amount then
      .error (.code .UnprofitableSandwich)
    else
      let actual_output := output_balance_after - output_balance_before
      let profit := actual_output - st.frontrun_input_amount
      .ok ({ st with is_complete := true },
        { sandwich_id
          profit
          input_amount := st.frontrun_input_amount
          output_amount := actual_output
          timestamp := now })

/-- Body of the bounded binary search of calculate_optimal_sandwich_output_amount
in raydium/cpmm/swap_base_output.rs, searching over the output amount bought by
the front-run. The price impact is measured on the victim's required input; a
zero pre-attack required input makes the division panic. -/
def cpmm_output_search_loop (trade_fee_rate protocol_fee_rate fund_fee_rate
    reserve_in reserve_out safe_slippage_bps target_amount_out : Nat) :
    Nat → Nat → Nat → Nat → Nat → Except Fail (Nat × Nat)
  | 0, _, _, best, bestProfit => .ok (best, bestProfit)
  | fuel + 1, low, high, best, bestProfit =>
    if low ≥ high then .ok (best, bestProfit)
    else
      let mid := (low + high) / 2
      match CurveCalculator.swap_base_output mid reserve_in reserve_out
          trade_fee_rate protocol_fee_rate fund_fee_rate with
      | none => .error (.code .CalculationFailure)
      | some buy =>
        let new_reserve_in := reserve_in + buy.source_amount_swapped
        let new_reserve_out := wsub128 reserve_out buy.destination_amount_swapped
        match CurveCalculator.swap_base_output target_amount_out reserve_in reserve_out
            trade_fee_rate protocol_fee_rate fund_fee_rate with
        | none => .error (.code .CalculationFailure)
        | some tb =>
          match CurveCalculator.swap_base_output target_amount_out new_reserve_in
              new_reserve_out trade_fee_rate protocol_fee_rate fund_fee_rate with
          | none => .error (.code .CalculationFailure)
          | some ta =>
            let inBefore := tb.source_amount_swapped
            let inAfter := ta.source_amount_swapped
            if inBefore = 0 then .error .panic
            else
              let price_impact_bps := wmul128 (wsub128 inAfter inBefore) 10000 / inBefore
              if price_impact_bps ≤ safe_slippage_bps then
                let after_target_reserve_in := new_reserve_in + inAfter
                let after_target_reserve_out := wsub128 new_reserve_out target_amount_out
                let backAsk :=
                  (match checkedMul128 buy.source_amount_swapped 101 with
                   | none => buy.source_amount_swapped
                   | some v => v) / 100
                match CurveCalculator.swap_base_output backAsk
                    after_target_reserve_out after_target_reserve_in
                    trade_fee_rate protocol_fee_rate fund_fee_rate with
                | none => .error (.code .CalculationFailure)
                | some br =>
                  let profit := br.destination_amount_swapped - buy.source_amount_swapped
                  let best2 := if profit > bestProfit then mid else best
                  let bestProfit2 := if profit > bestProfit then profit else bestProfit
                  if profit > 0 then
                    cpmm_output_search_loop trade_fee_rate protocol_fee_rate fund_fee_rate
                      reserve_in reserve_out safe_slippage_bps target_amount_out
                      fuel (mid + 1) high best2 bestProfit2
                  else
                    cpmm_output_search_loop trade_fee_rate protocol_fee_rate fund_fee_rate
                      reserve_in reserve_out safe_slippage_bps target_amount_out
                      fuel low (mid - 1) best2 bestProfit2
              else
                cpmm_output_search_loop trade_fee_rate protocol_fee_rate fund_fee_rate
                  reserve_in reserve_out safe_slippage_bps target_amount_out
                  fuel low (mid - 1) best bestProfit

/-- Optimizer calculate_optimal_sandwich_output_amount of
raydium/cpmm/swap_base_output.rs: the 20-round search from low 1, high
reserve_out over 10, starting best reserve_out over 100, narrowed to u64, with
the dust-floor gate at 100 applied inside the function. -/
def calculate_optimal_sandwich_output_amount (reserve_in reserve_out
    safe_slippage_bps target_amount_out
    trade_fee_rate protocol_fee_rate fund_fee_rate : Nat) : Except Fail Nat := do
  let initial_estimate := reserve_out / 100
  let max_amount := reserve_out / 10
  let r ← cpmm_output_search_loop trade_fee_rate protocol_fee_rate fund_fee_rate
    reserve_in reserve_out safe_slippage_bps target_amount_out
    20 1 max_amount initial_estimate 0
  let result := if r.1 < U64 then r.1 else U64 - 1
  if result < 100 then .error (.code .InsufficientSandwichAmount)
  else .ok result

/-- Helper calculate_max_input_for_sandwich of raydium/cpmm/swap_base_output.rs:
the quoted input grossed up by five percent. The u64 narrowing of the quoted
source amount panics on overflow. -/
def calculate_max_input_for_sandwich (amount_out reserve_in reserve_out
    trade_fee_rate protocol_fee_rate fund_fee_rate : Nat) : Except Fail Nat := do
  match CurveCalculator.swap_base_output amount_out reserve_in reserve_out
      trade_fee_rate protocol_fee_rate fund_fee_rate with
  | none => .error (.code .CalculationFailure)
  | some r =>
      if r.source_amount_swapped < U64 then
        .ok (satMul64 r.source_amount_swapped 105 / 100)
      else .error .panic

/-- Planning context of cpmm_frontrun_swap_base_output in
raydium/cpmm/swap_base_output.rs up to the optimizer call: resolves reserves,
grosses the victim's requested output and quoted input up by the token-2022
inverse transfer fees (checked_add with unwrap panics on overflow), and derives
the slippage tolerance from the victim's maximum input. Returns the reserves,
the grossed victim output, and the safety ceiling. -/
def cpmm_output_plan_prefix (a : CpmmArgs)
    (target_max_amount_in target_amount_out : Nat)
    (out_transfer_fee in_transfer_fee : Nat) : Except Fail (Nat × Nat × Nat × Nat) := do
  let r ← cpmm_resolve_reserves a
  if target_amount_out + out_transfer_fee ≥ U64 then .error .panic
  else
    let target_actual_amount_out := target_amount_out + out_transfer_fee
    match CurveCalculator.swap_base_output target_actual_amount_out r.1 r.2
        a.trade_fee_rate a.protocol_fee_rate a.fund_fee_rate with
    | none => .error (.code .CalculationFailure)
    | some tsr =>
      if tsr.source_amount_swapped ≥ U64 then .error .panic
      else if tsr.source_amount_swapped + in_transfer_fee ≥ U64 then .error .panic
      else
        let target_actual_amount_in := tsr.source_amount_swapped + in_transfer_fee
        if target_actual_amount_in > 0 then
          let target_slippage_bps :=
            (target_max_amount_in - target_actual_amount_in) * 10000 /
              target_actual_amount_in
          let safe_slippage_bps := satMul128 target_slippage_bps 95 / 100
          .ok (r.1, r.2, target_actual_amount_out, safe_slippage_bps)
        else .error (.code .CalculationFailure)

/-- Planning phase of cpmm_frontrun_swap_base_output in
raydium/cpmm/swap_base_output.rs: the context above, the optimizer with its
internal dust gate, the handler's own dust-floor gate at 100, and the
maximum-in limit for the executed swap. -/
def cpmm_frontrun_output_plan (a : CpmmArgs)
    (target_max_amount_in target_amount_out : Nat)
    (out_transfer_fee in_transfer_fee : Nat) : Except Fail CpmmPlan := do
  let c ← cpmm_output_plan_prefix a target_max_amount_in target_amount_out
    out_transfer_fee in_transfer_fee
  let optimal_output_amount ← calculate_optimal_sandwich_output_amount c.1 c.2.1
    c.2.2.2 c.2.2.1 a.trade_fee_rate a.protocol_fee_rate a.fund_fee_rate
  if optimal_output_amount < 100 then .error (.code .InsufficientSandwichAmount)
  else do
    let max_in ← calculate_max_input_for_sandwich optimal_output_amount c.1 c.2.1
      a.trade_fee_rate a.protocol_fee_rate a.fund_fee_rate
    .ok { amount := optimal_output_amount, limit := max_in }

/-- Handler cpmm_frontrun_swap_base_output of raydium/cpmm/swap_base_output.rs:
plans, executes the CPI, and writes the fresh record (init, so no prior record),
storing the maximum-in limit as the recorded front-run input. -/
def cpmm_frontrun_swap_base_output (a : CpmmArgs)
    (target_max_amount_in target_amount_out out_transfer_fee in_transfer_fee : Nat)
    (sandwich_id : Nat) (output_balance_before output_balance_after : Nat)
    (input_mint output_mint : Nat) (now : Int) (bump : Nat) :
    Except Fail (CpmmPlan × SandwichState) := do
  let plan ← cpmm_frontrun_output_plan a target_max_amount_in target_amount_out
    out_transfer_fee in_transfer_fee
  .ok (plan,
    { frontrun_output_amount := output_balance_after - output_balance_before
      frontrun_input_amount := plan.limit
      sandwich_id
      is_complete := false
      token_in_mint := input_mint
      token_out_mint := output_mint
      timestamp := now
      bump })

/-- Handler cpmm_backrun_swap_base_output of raydium/cpmm/swap_base_output.rs:
the same account constraints as the base-input back-run, then a minimum-out
floor of 0.5 percent over the recorded input for the exact-output CPI, with no
further profitability gate; on CPI success it marks the record complete and
reports profit from the output balance delta. -/
def cpmm_backrun_swap_base_output (st : SandwichState) (a : CpmmArgs)
    (presented_input_mint presented_output_mint : Nat)
    (output_balance_before output_balance_after : Nat)
    (sandwich_id : Nat) (now : Int) :
    Except Fail (SandwichState × SandwichCompleteEvent) := do
  if st.is_complete then .error (.code .SandwichAlreadyCompleted)
  else if st.token_in_mint ≠ presented_output_mint then .error (.code .TokenMintMismatch)
  else if st.token_out_mint ≠ presented_input_mint then .error (.code .TokenMintMismatch)
  else do
    let _ ← cpmm_resolve_reserves a
    let _min_amount_out ←
      match checkedMul64 st.frontrun_input_amount 1005 with
      | none => .error (.code .CalculationFailure)
      | some v => .ok (v / 1000)
    let actual_output := output_balance_after - output_balance_before
    let profit := actual_output - st.frontrun_input_amount
    .ok ({ st with is_complete := true },
      { sandwich_id
        profit
        input_amount := st.frontrun_input_amount
        output_amount := actual_output
        timestamp := now })

/-- Expected-output helper of pumpswap/sell.rs (calculate_expected_output there):
unlike its CPMM namesake it quotes through swap_base_output, passing the input
amount in the output-amount position. -/
def pumpswap_calculate_expected_output (amount_in reserve_in reserve_out
    r1 r2 r3 : Nat) : Except Fail Nat :=
  match CurveCalculator.swap_base_output amount_in reserve_in reserve_out r1 r2 r3 with
  | none => .error (.code .CalculationFailure)
  | some r =>
      if r.destination_amount_swapped < U64 then .ok r.destination_amount_swapped
      else .error (.code .CalculationFailure)

/-- Vault netting of pumpswap/sell.rs: each pool balance less
Fees.protocol_fee(balance, 501); with the spec-modelled pro-rata fee the checked
subtraction cannot fail. -/
def pumpswap_vault_amount_without_fee (vault_0 vault_1 : Nat) :
    Except Fail (Nat × Nat) :=
  match Fees.protocol_fee vault_0 501, Fees.protocol_fee vault_1 501 with
  | some f0, some f1 =>
      if f0 ≤ vault_0 ∧ f1 ≤ vault_1 then .ok (vault_0 - f0, vault_1 - f1)
      else .error .panic
  | _, _ => .error .panic

/-- Helper calculate_minimum_out_for_sandwich of pumpswap/sell.rs, built on the
swap_base_output based expected output of that file. -/
def pumpswap_calculate_minimum_out_for_sandwich (amount_in reserve_in reserve_out
    r1 r2 r3 : Nat) : Except Fail Nat := do
  let expected ← pumpswap_calculate_expected_output amount_in reserve_in reserve_out r1 r2 r3
  pure (satMul64 expected 95 / 100)

/-- Inputs of the planning phase of pumpswap_frontrun_sell. The associated token
addresses of the pool for its base and quote mints are opaque derived keys and
enter the model as given values, as do the global-config fee basis points and
the token-2022 transfer fee of the sold token. -/
structure PumpSwapSellArgs where
  ata_of_base : Nat
  ata_of_quote : Nat
  pool_base_token_key : Nat
  pool_quote_token_key : Nat
  pool_base_amount : Nat
  pool_quote_amount : Nat
  coin_creator_fee_basis_points : Nat
  protocol_fee_basis_points : Nat
  lp_fee_basis_points : Nat
  deriving DecidableEq, Repr

/-- The three global-config fee rates of pumpswap/sell.rs, each scaled by 100
with wrapping u64 multiplication as in the source. -/
def pumpswap_fee_rates (a : PumpSwapSellArgs) : Nat × Nat × Nat :=
  (wmul64 a.coin_creator_fee_basis_points 100,
   wmul64 a.protocol_fee_basis_points 100,
   wmul64 a.lp_fee_basis_points 100)

/-- Planning context of pumpswap_frontrun_sell in pumpswap/sell.rs up to the
optimizer call: direction resolution against the derived pool token addresses
(else InvalidVault), vault netting, and the victim's tolerance from its
minimum-out with the 95 percent safety scaling. Returns the reserves, the
victim amount net of its transfer fee, and the safety ceiling. -/
def pumpswap_sell_plan_prefix (a : PumpSwapSellArgs)
    (base_amount_in min_quote_amount_out target_transfer_fee : Nat) :
    Except Fail (Nat × Nat × Nat × Nat) := do
  let r ←
    (if a.pool_base_token_key = a.ata_of_base ∧ a.pool_quote_token_key = a.ata_of_quote then do
      let v ← pumpswap_vault_amount_without_fee a.pool_base_amount a.pool_quote_amount
      .ok (v.1, v.2)
    else if a.pool_quote_token_key = a.ata_of_base ∧ a.pool_base_token_key = a.ata_of_quote then do
      let v ← pumpswap_vault_amount_without_fee a.pool_quote_amount a.pool_base_amount
      .ok (v.2, v.1)
    else .error (.code .InvalidVault) : Except Fail (Nat × Nat))
  let target_actual_amount_in := base_amount_in - target_transfer_fee
  let f := pumpswap_fee_rates a
  let expected ← pumpswap_calculate_expected_output target_actual_amount_in r.1 r.2
    f.1 f.2.1 f.2.2
  if expected > 0 then
    let target_slippage_bps := (expected - min_quote_amount_out) * 10000 / expected
    let safe_slippage_bps := satMul128 target_slippage_bps 95 / 100
    .ok (r.1, r.2, target_actual_amount_in, safe_slippage_bps)
  else .error (.code .CalculationFailure)

/-- Planning phase of pumpswap_frontrun_sell in pumpswap/sell.rs: the context
above, the shared bounded search (the file's calculate_optimal_sandwich_amount
is a verbatim copy of the CPMM one), the dust-floor gate at 100, and the
minimum-out limit. -/
def pumpswap_frontrun_sell_plan (a : PumpSwapSellArgs)
    (base_amount_in min_quote_amount_out target_transfer_fee : Nat) :
    Except Fail CpmmPlan := do
  let c ← pumpswap_sell_plan_prefix a base_amount_in min_quote_amount_out
    target_transfer_fee
  let f := pumpswap_fee_rates a
  let optimal_buy_amount ← calculate_optimal_sandwich_amount c.1 c.2.1
    c.2.2.2 base_amount_in c.2.2.1 f.1 f.2.1 f.2.2
  if optimal_buy_amount < 100 then .error (.code .InsufficientSandwichAmount)
  else do
    let minimum_out ← pumpswap_calculate_minimum_out_for_sandwich optimal_buy_amount
      c.1 c.2.1 f.1 f.2.1 f.2.2
    .ok { amount := optimal_buy_amount, limit := minimum_out }

/-- Handler pumpswap_frontrun_sell of pumpswap/sell.rs: plans, executes the CPI,
and writes the record. The record account uses init_if_needed with no
completion-flag constraint, so an existing record for the id, completed or not,
is reused and every field is overwritten, with is_complete reset to false. -/
def pumpswap_frontrun_sell (prev : Option SandwichState) (a : PumpSwapSellArgs)
    (base_amount_in min_quote_amount_out target_transfer_fee : Nat)
    (sandwich_id : Nat) (quote_balance_before quote_balance_after : Nat)
    (base_mint quote_mint : Nat) (now : Int) (bump : Nat) :
    Except Fail (CpmmPlan × SandwichState) := do
  let plan ← pumpswap_frontrun_sell_plan a base_amount_in min_quote_amount_out
    target_transfer_fee
  let st0 := prev.getD SandwichState.zeroed
  .ok (plan,
    { st0 with
      frontrun_output_amount := quote_balance_after - quote_balance_before
      frontrun_input_amount := plan.amount
      sandwich_id
      is_complete := false
      token_in_mint := base_mint
      token_out_mint := quote_mint
      timestamp := now
      bump })

/-- Handler pumpswap_backrun_buy of pumpswap/backrun.rs: explicit checks in the
body in order, SandwichAlreadyCompleted on a completed record, TokenMintMismatch
unless the recorded mints equal the presented base and quote mints, EmptySupply
on a zero recorded front-run output, all before the sell CPI; then profit from
the quote balance delta less the recorded input, saturating, and completion. -/
def pumpswap_backrun_buy (st : SandwichState) (base_mint quote_mint : Nat)
    (quote_balance_before quote_balance_after : Nat) (now : Int) :
    Except Fail (SandwichState × SandwichCompleteEvent) :=
  if st.is_complete then .error (.code .SandwichAlreadyCompleted)
  else if st.token_in_mint ≠ base_mint ∨ st.token_out_mint ≠ quote_mint then
    .error (.code .TokenMintMismatch)
  else if st.frontrun_output_amount = 0 then .error (.code .EmptySupply)
  else
    let backrun_output_amount := quote_balance_after - quote_balance_before
    let profit := backrun_output_amount - st.frontrun_input_amount
    .ok ({ st with is_complete := true },
      { sandwich_id := st.sandwich_id
        profit
        input_amount := st.frontrun_input_amount
        output_amount := backrun_output_amount
        timestamp := now })

/-- Handler pumpswap_backrun_sell of pumpswap/backrun.rs: the completion check,
then TokenMintMismatch unless the recorded output mint equals the presented base
mint and the recorded input mint equals the presented quote mint, then
EmptySupply on zero recorded output; after the buy CPI the profit is the
recorded input less the base balance delta when that delta does not exceed the
input, and zero otherwise. -/
def pumpswap_backrun_sell (st : SandwichState) (base_mint quote_mint : Nat)
    (base_balance_before base_balance_after : Nat) (now : Int) :
    Except Fail (SandwichState × SandwichCompleteEvent) :=
  if st.is_complete then .error (.code .SandwichAlreadyCompleted)
  else if st.token_out_mint ≠ base_mint ∨ st.token_in_mint ≠ quote_mint then
    .error (.code .TokenMintMismatch)
  else if st.frontrun_output_amount = 0 then .error (.code .EmptySupply)
  else
    let backrun_output_amount := base_balance_after - base_balance_before
    let profit :=
      if backrun_output_amount ≤ st.frontrun_input_amount then
        st.frontrun_input_amount - backrun_output_amount
      else 0
    .ok ({ st with is_complete := true },
      { sandwich_id := st.sandwich_id
        profit
        input_amount := st.frontrun_input_amount
        output_amount := backrun_output_amount
        timestamp := now })

/-- Opaque identifier of the SPL native mint constant spl_token native_mint id,
which amm_frontrun_swap_base_in records as the input mint. -/
def native_mint : Nat := 1

/-- Closed-form front-run planner compute_front_run_base_in_with_fee of
raydium/amm/frontrun_swap_base_in.rs. The source computes in f64; it is modelled
here in exact real arithmetic, with the two floor-to-u64 casts saturating at
zero and at u64 MAX as Rust float-to-integer casts do. Returns the front-run
amount in, the personal minimum out with the 0.2 percent cushion, and the
profit ratio, or none when the victim already fails, the root is non-positive,
or the simulated profit ratio is below the floor. -/
noncomputable def compute_front_run_base_in_with_fee
    (x_base_reserve y_quote_reserve target_amount_in target_min_amount_out : Nat)
    (fee_fraction min_profit_pct : ℝ) : Option (Nat × Nat × ℝ) :=
  let g : ℝ := 1 - fee_fraction
  let x0 : ℝ := x_base_reserve
  let y0 : ℝ := y_quote_reserve
  let k := x0 * y0
  let dt_eff := (target_amount_in : ℝ) * g
  let m : ℝ := target_min_amount_out
  let a := m
  let b := m * (dt_eff + 2 * x0)
  let c := m * dt_eff * x0 + m * x0 * x0 - g * dt_eff * x0 * y0
  let disc := b * b - 4 * a * c
  if disc ≤ 0 then none
  else
    let d_max := (-b + Real.sqrt disc) / (2 * a)
    if d_max ≤ 0 then none
    else
      let my_amount_in := min (Int.toNat ⌊d_max / g⌋) (U64 - 1)
      if my_amount_in = 0 then none
      else
        let y1 := k / (x0 + d_max)
        let q_out := y0 - y1
        if q_out ≤ 0 then none
        else
          let x1 := x0 + d_max
          let x2 := x1 + dt_eff
          let y2 := k / x2
          let q_eff_back := q_out * g
          let y3 := y2 + q_eff_back
          let x3 := k / y3
          let base_back := x2 - x3
          let profit := base_back - d_max / g
          let profit_pct := profit / (d_max / g)
          if profit_pct < min_profit_pct then none
          else some (my_amount_in, min (Int.toNat ⌊q_out * 0.998⌋) (U64 - 1), profit_pct)

/-- Handler amm_frontrun_swap_base_in of raydium/amm/frontrun_swap_base_in.rs.
The fee fraction is swap fee plus sixteen percent of the trade fee, the profit
floor is 0.5 percent, and a failed plan surfaces as UnprofitableSandwich. The
record account uses init_if_needed with no completion-flag constraint: the
existing record for the id, completed or not, is loaded (or a zeroed one is
created) and every field is overwritten, with is_complete unconditionally reset
to false. The recorded input amount is the source balance after the CPI minus
the balance before it, saturating; the recorded output amount is the absolute
destination balance after the CPI. -/
noncomputable def amm_frontrun_swap_base_in (prev : Option SandwichState)
    (pool_coin pool_quote target_amount_in target_minimum_amount_out : Nat)
    (trade_fee swap_fee : ℝ)
    (source_balance_before source_balance_after target_balance_after : Nat)
    (sandwich_id base_mint : Nat) (now : Int) (bump : Nat) :
    Except Fail SandwichState :=
  let fee_fraction := swap_fee + trade_fee * 0.16
  match compute_front_run_base_in_with_fee pool_coin pool_quote target_amount_in
      target_minimum_amount_out fee_fraction 0.005 with
  | none => .error (.code .UnprofitableSandwich)
  | some _ =>
      let st0 := prev.getD SandwichState.zeroed
      .ok { st0 with
        frontrun_output_amount := target_balance_after
        frontrun_input_amount := source_balance_after - source_balance_before
        sandwich_id
        token_in_mint := native_mint
        token_out_mint := base_mint
        timestamp := now
        is_complete := false
        bump }

/-- Handler amm_backrun_swap_base_in of raydium/amm/backrun_swap_base_in.rs. The
only account constraint on the record is the completion flag; no recorded-mint
check exists, so the presented base mint is unused. The CPI sells the recorded
front-run output with a zero minimum out; afterwards the realized output is the
source account balance after the CPI minus the destination account balance
before it, two different accounts, saturating, and profit is that value less
the recorded input, saturating. -/
def amm_backrun_swap_base_in (st : SandwichState) (presented_base_mint : Nat)
    (target_balance_before source_balance_after : Nat)
    (sandwich_id : Nat) (now : Int) :
    Except Fail (SandwichState × SandwichCompleteEvent) :=
  if st.is_complete then .error (.code .SandwichAlreadyCompleted)
  else
    let _ := presented_base_mint
    let actual_output := source_balance_after - target_balance_before
    let profit := actual_output - st.frontrun_input_amount
    .ok ({ st with is_complete := true },
      { sandwich_id
        profit
        input_amount := st.frontrun_input_amount
        output_amount := actual_output
        timestamp := now })

/-- Closed-form front-run planner compute_front_run_with_fee of
pumpfun/frontrun_buy.rs for a victim that buys a fixed token amount under a
maximum SOL spend. The source computes in f64; it is modelled in exact real
arithmetic, with the floor-to-u64 casts saturating as Rust casts do. Returns
the front-run token amount out, the maximum SOL in, and the profit ratio. -/
noncomputable def compute_front_run_with_fee
    (v_tokens v_sol target_token_amount_out target_max_sol_amount_in : Nat)
    (fee min_profit_pct : ℝ) : Option (Nat × Nat × ℝ) :=
  let g := 1 - fee
  let x0 : ℝ := v_tokens
  let y0 : ℝ := v_sol
  let t : ℝ := target_token_amount_out
  let m : ℝ := target_max_sol_amount_in
  let k := x0 * y0
  let disc := m * g * t * (m * g * t + 4 * k)
  let y_max := (-(m * g * t) + Real.sqrt disc) / (2 * t)
  if y_max ≤ y0 then none
  else
    let delta_sol := (y_max - y0) / g
    if delta_sol ≤ 0 then none
    else
      let token_out_me := x0 - k / y_max
      if token_out_me ≤ 0 then none
      else
        let x2 := k / y_max - t
        if x2 ≤ 0 then none
        else
          let y2 := k / x2
          let x3 := x2 + token_out_me * g
          let y3 := k / x3
          let revenue_sol := y2 - y3
          let profit := revenue_sol - delta_sol
          let profit_pct := profit / delta_sol
          if profit_pct < min_profit_pct then none
          else some (min (Int.toNat ⌊token_out_me⌋) (U64 - 1),
                     min (Int.toNat ⌊delta_sol⌋) (U64 - 1), profit_pct)

/-- Handler pumpfun_frontrun_buy of pumpfun/frontrun_buy.rs: rejects with
ExceededSlippage when the spot cost of the victim buy already reaches its SOL
cap, plans with a one percent fee and a 0.5 percent profit floor, surfacing a
failed plan as UnprofitableSandwich. The record uses init_if_needed with no
completion-flag constraint; each written field overwrites the loaded or zeroed
record, is_complete is reset to false, and token_in_mint is never written, so
it keeps whatever the prior record, or the zeroed account, held. The recorded
input is the user lamports after the CPI minus the lamports before, saturating,
and the recorded output is the planned token amount. -/
noncomputable def pumpfun_frontrun_buy (prev : Option SandwichState)
    (v_tokens v_sol target_token_amount_out target_max_sol_amount_in : Nat)
    (lamports_before lamports_after : Nat)
    (sandwich_id mint : Nat) (now : Int) (bump : Nat) :
    Except Fail SandwichState :=
  let price_now : ℝ := (v_sol : ℝ) / (v_tokens : ℝ)
  let cost_now := (target_token_amount_out : ℝ) * price_now
  if ¬ (cost_now < (target_max_sol_amount_in : ℝ)) then
    .error (.code .ExceededSlippage)
  else
    match compute_front_run_with_fee v_tokens v_sol target_token_amount_out
        target_max_sol_amount_in 0.01 0.005 with
    | none => .error (.code .UnprofitableSandwich)
    | some plan =>
        let st0 := prev.getD SandwichState.zeroed
        .ok { st0 with
          frontrun_output_amount := plan.1
          frontrun_input_amount := lamports_after - lamports_before
          sandwich_id
          token_out_mint := mint
          timestamp := now
          is_complete := false
          bump }

/-- Handler pumpfun_backrun_buy of pumpfun/backrun_buy.rs: account constraints
reject a completed record with SandwichAlreadyCompleted and reject with
TokenMintMismatch unless the recorded token_in_mint equals the presented mint,
the only mint checked; the sell CPI then liquidates the recorded output, and
profit is the user lamports delta less the recorded input, saturating. -/
def pumpfun_backrun_buy (st : SandwichState) (presented_mint : Nat)
    (lamports_before lamports_after : Nat) (sandwich_id : Nat) (now : Int) :
    Except Fail (SandwichState × SandwichCompleteEvent) :=
  if st.is_complete then .error (.code .SandwichAlreadyCompleted)
  else if st.token_in_mint ≠ presented_mint then .error (.code .TokenMintMismatch)
  else
    let actual_output := lamports_after - lamports_before
    let profit := actual_output - st.frontrun_input_amount
    .ok ({ st with is_complete := true },
      { sandwich_id
        profit
        input_amount := st.frontrun_input_amount
        output_amount := actual_output
        timestamp := now })

/-- Q64.64 scaling unit of the CLMM sqrt-price representation. -/
def Q64 : Nat := 2 ^ 64

/-- Floor multiply-divide of raydium/clmm/swap.rs (mul_div): CalculationFailure
on a zero denominator or a u128 product overflow. -/
def mul_div (a b denominator : Nat) : Except Fail Nat :=
  if denominator = 0 then .error (.code .CalculationFailure)
  else match checkedMul128 a b with
    | none => .error (.code .CalculationFailure)
    | some p => .ok (p / denominator)

/-- Ceiling multiply-divide of raydium/clmm/swap.rs (mul_div_ceil):
CalculationFailure on u128 product overflow, but a zero denominator with a
nonzero product reaches the hardware division and panics. -/
def mul_div_ceil (a b denominator : Nat) : Except Fail Nat :=
  match checkedMul128 a b with
  | none => .error (.code .CalculationFailure)
  | some p =>
      if p = 0 then .ok 0
      else if denominator = 0 then .error .panic
      else .ok ((p - 1) / denominator + 1)

/-- Helper sqrt_price_after_amount_in of raydium/clmm/swap.rs: the sqrt price
after adding amount_in on the given side of a single liquidity range. -/
def sqrt_price_after_amount_in (sqrt_price_x64 liquidity amount_in : Nat)
    (zero_for_one : Bool) : Except Fail Nat :=
  if zero_for_one then do
    let product ← mul_div amount_in sqrt_price_x64 Q64
    let denominator := satAdd128 liquidity product
    if denominator = 0 then .error (.code .CalculationFailure)
    else mul_div liquidity sqrt_price_x64 denominator
  else do
    let sqrt_price_delta ← mul_div amount_in Q64 liquidity
    .ok (satAdd128 sqrt_price_x64 sqrt_price_delta)

/-- Helper calculate_amount0_delta of raydium/clmm/swap.rs. The product of the
two sqrt prices in the denominator uses wrapping u128 multiplication; the final
negation on the descending branch is the source's saturating 0 minus amount. -/
def calculate_amount0_delta (sqrt_price_a_x64 sqrt_price_b_x64 liquidity : Nat)
    (round_up : Bool) : Except Fail Nat := do
  let sqrt_price_low := min sqrt_price_a_x64 sqrt_price_b_x64
  let sqrt_price_high := max sqrt_price_a_x64 sqrt_price_b_x64
  let numerator1 := shl64w liquidity
  let numerator2 := sqrt_price_high - sqrt_price_low
  if sqrt_price_low = 0 then .error (.code .CalculationFailure)
  else do
    let amount ←
      if round_up then
        mul_div_ceil numerator1 numerator2 (wmul128 sqrt_price_high sqrt_price_low)
      else
        mul_div numerator1 numerator2 (wmul128 sqrt_price_high sqrt_price_low)
    if sqrt_price_a_x64 ≤ sqrt_price_b_x64 then .ok amount else .ok (0 - amount)

/-- Helper calculate_amount1_delta of raydium/clmm/swap.rs. -/
def calculate_amount1_delta (sqrt_price_a_x64 sqrt_price_b_x64 liquidity : Nat)
    (round_up : Bool) : Except Fail Nat := do
  let sqrt_price_low := min sqrt_price_a_x64 sqrt_price_b_x64
  let sqrt_price_high := max sqrt_price_a_x64 sqrt_price_b_x64
  let amount ←
    if round_up then
      mul_div_ceil liquidity (sqrt_price_high - sqrt_price_low) Q64
    else
      mul_div liquidity (sqrt_price_high - sqrt_price_low) Q64
  if sqrt_price_a_x64 ≤ sqrt_price_b_x64 then .ok amount else .ok (0 - amount)

/-- Single-range output simulation simulate_clmm_swap_output of
raydium/clmm/swap.rs: fee on input, sqrt-price displacement, and the delta
formulas, truncated to u64 as the source's cast does. The fee adjustment
1000000 minus the u32 fee rate and the adjusted-amount product use wrapping
u128 arithmetic as in release-mode Rust. -/
def simulate_clmm_swap_output (sqrt_price_x64 : Nat) (_tick : Int)
    (liquidity amount_in : Nat) (zero_for_one : Bool)
    (trade_fee_rate _protocol_fee_rate _fund_fee_rate : Nat) : Except Fail Nat := do
  let fee_adjustment := wsub128 1000000 trade_fee_rate
  let adjusted_amount := wmul128 amount_in fee_adjustment / 1000000
  if zero_for_one then do
    let new_sqrt_price ← sqrt_price_after_amount_in sqrt_price_x64 liquidity
      adjusted_amount true
    let delta_y ←
      if new_sqrt_price < sqrt_price_x64 then
        mul_div liquidity (sqrt_price_x64 - new_sqrt_price) Q64
      else .ok 0
    .ok (delta_y % U64)
  else do
    let new_sqrt_price ← sqrt_price_after_amount_in sqrt_price_x64 liquidity
      adjusted_amount false
    let delta_x ←
      if new_sqrt_price > sqrt_price_x64 then do
        let hi ← mul_div liquidity Q64 sqrt_price_x64
        let lo ← mul_div liquidity Q64 new_sqrt_price
        .ok (hi - lo)
      else .ok 0
    .ok (delta_x % U64)

/-- Single-range input simulation simulate_clmm_swap_input of
raydium/clmm/swap.rs: works the displacement backwards from the requested
output, rounds the input up, and grosses it up by the fee, truncated to u64. -/
def simulate_clmm_swap_input (sqrt_price_x64 : Nat) (_tick : Int)
    (liquidity amount_out : Nat) (zero_for_one : Bool)
    (trade_fee_rate _protocol_fee_rate _fund_fee_rate : Nat) : Except Fail Nat := do
  let raw_amount_in ←
    if zero_for_one then do
      let sqrt_price_delta ← mul_div amount_out Q64 liquidity
      let new_sqrt_price := sqrt_price_x64 - sqrt_price_delta
      calculate_amount0_delta sqrt_price_x64 new_sqrt_price liquidity true
    else do
      let inv_sqrt_price_delta ← mul_div amount_out sqrt_price_x64 liquidity
      let d ← mul_div inv_sqrt_price_delta Q64 sqrt_price_x64
      let new_sqrt_price := satAdd128 sqrt_price_x64 d
      calculate_amount1_delta sqrt_price_x64 new_sqrt_price liquidity true
  let total_amount_in ← mul_div raw_amount_in 1000000 (wsub128 1000000 trade_fee_rate)
  .ok (total_amount_in % U64)

/-- Helper calculate_price_impact of raydium/clmm/swap.rs: the estimated
sqrt-price displacement of a trade of the given size, by direction and fixed
side, with wrapping u128 products and a panic on a zero liquidity denominator. -/
def calculate_price_impact (current_sqrt_price_x64 liquidity amount : Nat)
    (zero_for_one is_base_input : Bool) (fee_rate : Nat) : Except Fail Nat :=
  let fee_adjustment := wsub128 1000000 fee_rate
  let adjusted_amount := wmul128 amount fee_adjustment / 1000000
  if is_base_input then
    if zero_for_one then
      if liquidity = 0 then .error .panic
      else .ok (wmul128 adjusted_amount current_sqrt_price_x64 / liquidity)
    else
      if liquidity = 0 then .error .panic
      else .ok (wmul128 adjusted_amount Q64 / liquidity)
  else if zero_for_one then
    if wmul128 liquidity 2 = 0 then .error .panic
    else .ok (wmul128 adjusted_amount Q64 / wmul128 liquidity 2)
  else
    if wmul128 liquidity 2 = 0 then .error .panic
    else .ok (wmul128 adjusted_amount current_sqrt_price_x64 / wmul128 liquidity 2)

/-- Helper calculate_clmm_slippage of raydium/clmm/swap.rs: the victim's implied
tolerance in basis points from its threshold against the simulated fair value,
defaulting to 10 basis points when the threshold is not slack; the exact-output
branch divides by the simulated input and panics when that input is zero. -/
def calculate_clmm_slippage (amount threshold : Nat) (is_base_input : Bool)
    (_sqrt_price_limit_x64 current_sqrt_price_x64 : Nat) (current_tick : Int)
    (liquidity : Nat) (zero_for_one : Bool)
    (trade_fee_rate protocol_fee_rate fund_fee_rate : Nat) : Except Fail Nat := do
  if is_base_input then do
    let expected_output ← simulate_clmm_swap_output current_sqrt_price_x64 current_tick
      liquidity amount zero_for_one trade_fee_rate protocol_fee_rate fund_fee_rate
    if expected_output > threshold then
      .ok ((expected_output - threshold) * 10000 / expected_output)
    else .ok 10
  else do
    let expected_input ← simulate_clmm_swap_input current_sqrt_price_x64 current_tick
      liquidity amount zero_for_one trade_fee_rate protocol_fee_rate fund_fee_rate
    if threshold > expected_input then
      if expected_input = 0 then .error .panic
      else .ok ((threshold - expected_input) * 10000 / expected_input)
    else .ok 10

/-- Body of the bounded binary search of calculate_optimal_clmm_sandwich_amount
in raydium/clmm/swap.rs, over u64 candidate sizes, tracking the best amount and
profit seen; the victim legs are re-simulated at the displaced price, and the
price-impact ratios use wrapping u64 subtraction as the source's release-mode
subtraction does. -/
def clmm_search_loop (current_sqrt_price_x64 : Nat) (current_tick : Int)
    (liquidity target_amount safe_slippage_bps : Nat)
    (target_is_base_input zero_for_one : Bool)
    (trade_fee_rate protocol_fee_rate fund_fee_rate : Nat) :
    Nat → Nat → Nat → Nat → Nat → Except Fail (Nat × Nat)
  | 0, _, _, best, bestProfit => .ok (best, bestProfit)
  | fuel + 1, low, high, best, bestProfit =>
    if low ≥ high then .ok (best, bestProfit)
    else do
      let mid := (low + high) / 2
      let frontrun_price_impact ← calculate_price_impact current_sqrt_price_x64
        liquidity mid zero_for_one true trade_fee_rate
      let after_frontrun_price :=
        if zero_for_one then current_sqrt_price_x64 - frontrun_price_impact
        else satAdd128 current_sqrt_price_x64 frontrun_price_impact
      let frontrun_output ← simulate_clmm_swap_output current_sqrt_price_x64
        current_tick liquidity mid zero_for_one
        trade_fee_rate protocol_fee_rate fund_fee_rate
      let beforePair ←
        (if target_is_base_input then do
          let o ← simulate_clmm_swap_output current_sqrt_price_x64 current_tick
            liquidity target_amount zero_for_one
            trade_fee_rate protocol_fee_rate fund_fee_rate
          .ok (o, target_amount)
        else do
          let i ← simulate_clmm_swap_input current_sqrt_price_x64 current_tick
            liquidity target_amount zero_for_one
            trade_fee_rate protocol_fee_rate fund_fee_rate
          .ok (target_amount, i) : Except Fail (Nat × Nat))
      let afterPair ←
        (if target_is_base_input then do
          let o ← simulate_clmm_swap_output after_frontrun_price current_tick
            liquidity target_amount zero_for_one
            trade_fee_rate protocol_fee_rate fund_fee_rate
          .ok (o, target_amount)
        else do
          let i ← simulate_clmm_swap_input after_frontrun_price current_tick
            liquidity target_amount zero_for_one
            trade_fee_rate protocol_fee_rate fund_fee_rate
          .ok (target_amount, i) : Except Fail (Nat × Nat))
      let price_impact_bps :=
        if target_is_base_input then
          if beforePair.1 > 0 then wsub64 beforePair.1 afterPair.1 * 10000 / beforePair.1
          else 0
        else if beforePair.2 > 0 then
          wsub64 afterPair.2 beforePair.2 * 10000 / beforePair.2
        else 0
      if price_impact_bps ≤ safe_slippage_bps then do
        let target_price_impact ←
          (if target_is_base_input then
            calculate_price_impact after_frontrun_price liquidity target_amount
              zero_for_one true trade_fee_rate
          else do
            let target_input ← simulate_clmm_swap_input after_frontrun_price
              current_tick liquidity target_amount zero_for_one
              trade_fee_rate protocol_fee_rate fund_fee_rate
            calculate_price_impact after_frontrun_price liquidity target_input
              zero_for_one true trade_fee_rate : Except Fail Nat)
        let after_target_price :=
          if zero_for_one then after_frontrun_price - target_price_impact
          else satAdd128 after_frontrun_price target_price_impact
        let backrun_output ← simulate_clmm_swap_output after_target_price current_tick
          liquidity frontrun_output (!zero_for_one)
          trade_fee_rate protocol_fee_rate fund_fee_rate
        let profit := backrun_output - mid
        let best2 := if profit > bestProfit then mid else best
        let bestProfit2 := if profit > bestProfit then profit else bestProfit
        if profit > 0 then
          clmm_search_loop current_sqrt_price_x64 current_tick liquidity
            target_amount safe_slippage_bps target_is_base_input zero_for_one
            trade_fee_rate protocol_fee_rate fund_fee_rate
            fuel (mid + 1) high best2 bestProfit2
        else
          clmm_search_loop current_sqrt_price_x64 current_tick liquidity
            target_amount safe_slippage_bps target_is_base_input zero_for_one
            trade_fee_rate protocol_fee_rate fund_fee_rate
            fuel low (mid - 1) best2 bestProfit2
      else
        clmm_search_loop current_sqrt_price_x64 current_tick liquidity
          target_amount safe_slippage_bps target_is_base_input zero_for_one
          trade_fee_rate protocol_fee_rate fund_fee_rate
          fuel low (mid - 1) best bestProfit

/-- Optimizer calculate_optimal_clmm_sandwich_amount of raydium/clmm/swap.rs:
the 20-round search from low 1 to three times the victim size, starting best a
fifth of the victim size, ending with the source's gate that demands a best
profit of at least 100 (the dust-floor check on the amount itself is applied by
the calling handler). -/
def calculate_optimal_clmm_sandwich_amount (current_sqrt_price_x64 : Nat)
    (current_tick : Int) (liquidity target_amount safe_slippage_bps : Nat)
    (target_is_base_input zero_for_one : Bool)
    (trade_fee_rate protocol_fee_rate fund_fee_rate : Nat) : Except Fail Nat := do
  let max_search_amount := satMul64 target_amount 3
  let r ← clmm_search_loop current_sqrt_price_x64 current_tick liquidity
    target_amount safe_slippage_bps target_is_base_input zero_for_one
    trade_fee_rate protocol_fee_rate fund_fee_rate
    20 1 max_search_amount (target_amount / 5) 0
  if r.2 < 100 then .error (.code .InsufficientSandwichAmount)
  else .ok r.1

/-- Planning phase of clmm_frontrun_swap in raydium/clmm/swap.rs: the pool
open-time gate (a generic require_gt failure), direction from the input vault
mint, the victim size adjusted by the applicable token-2022 transfer fee, the
tolerance and its 95 percent safety scaling, the optimizer, and the dust-floor
gate at 100 base units. The later price-limit computation, CPI and record write
(the record uses init, so no prior record exists) run only on success. -/
def clmm_frontrun_plan (now_u64 open_time : Nat)
    (input_vault_mint token_mint_0 : Nat)
    (target_amount target_other_amount_threshold target_sqrt_price_limit_x64 : Nat)
    (target_is_base_input : Bool)
    (current_sqrt_price_x64 : Nat) (current_tick : Int) (liquidity : Nat)
    (trade_fee_rate protocol_fee_rate fund_fee_rate : Nat)
    (in_transfer_fee out_inverse_fee : Nat) : Except Fail Nat := do
  if ¬ (now_u64 > open_time) then .error .anchor
  else do
    let zero_for_one := input_vault_mint = token_mint_0
    let target_actual_amount :=
      if target_is_base_input then target_amount - in_transfer_fee
      else satAdd64 target_amount out_inverse_fee
    let target_slippage_bps ← calculate_clmm_slippage target_actual_amount
      target_other_amount_threshold target_is_base_input
      target_sqrt_price_limit_x64 current_sqrt_price_x64 current_tick liquidity
      zero_for_one trade_fee_rate protocol_fee_rate fund_fee_rate
    let safe_slippage_bps := satMul128 target_slippage_bps 95 / 100
    let optimal_amount ← calculate_optimal_clmm_sandwich_amount
      current_sqrt_price_x64 current_tick liquidity target_actual_amount
      safe_slippage_bps target_is_base_input zero_for_one
      trade_fee_rate protocol_fee_rate fund_fee_rate
    if optimal_amount < 100 then .error (.code .InsufficientSandwichAmount)
    else .ok optimal_amount

/-- Handler clmm_backrun_swap of raydium/clmm/swap.rs: account constraints
reject a completed record with SandwichAlreadyCompleted and mismatched recorded
mints with TokenMintMismatch (reversed direction, as in the CPMM back-run),
then the open-time gate, the quoted back-run with transfer-fee adjustments, the
0.5 percent minimum-profit floor, and on CPI success completion and a profit
report whose realized output uses checked_sub with unwrap, panicking if the
output balance decreased. -/
def clmm_backrun_swap (st : SandwichState)
    (presented_input_mint presented_output_mint : Nat)
    (now_u64 open_time : Nat) (token_mint_0 : Nat)
    (current_sqrt_price_x64 : Nat) (current_tick : Int) (liquidity : Nat)
    (trade_fee_rate protocol_fee_rate fund_fee_rate : Nat)
    (input_mint_is_plain_spl : Bool) (in_transfer_fee : Nat)
    (output_mint_is_plain_spl : Bool) (out_inverse_fee : Nat)
    (output_balance_before output_balance_after : Nat)
    (sandwich_id : Nat) (now : Int) :
    Except Fail (SandwichState × SandwichCompleteEvent) := do
  if st.is_complete then .error (.code .SandwichAlreadyCompleted)
  else if st.token_in_mint ≠ presented_output_mint then .error (.code .TokenMintMismatch)
  else if st.token_out_mint ≠ presented_input_mint then .error (.code .TokenMintMismatch)
  else if ¬ (now_u64 > open_time) then .error .anchor
  else do
    let zero_for_one := presented_input_mint = token_mint_0
    let amount_with_fee :=
      if input_mint_is_plain_spl then st.frontrun_output_amount
      else st.frontrun_output_amount - in_transfer_fee
    let raw_expected_output ← simulate_clmm_swap_output current_sqrt_price_x64
      current_tick liquidity amount_with_fee zero_for_one
      trade_fee_rate protocol_fee_rate fund_fee_rate
    let expected_output :=
      if output_mint_is_plain_spl then raw_expected_output
      else raw_expected_output - out_inverse_fee
    let min_required_output ←
      match checkedMul64 st.frontrun_input_amount 1005 with
      | none => .error (.code .CalculationFailure)
      | some v => .ok (v / 1000)
    let minimum_output := max (satMul64 expected_output 98 / 100) min_required_output
    if minimum_output ≤ st.frontrun_input_amount then
      .error (.code .UnprofitableSandwich)
    else if output_balance_after < output_balance_before then .error .panic
    else
      let actual_output := output_balance_after - output_balance_before
      let profit := actual_output - st.frontrun_input_amount
      .ok ({ st with is_complete := true },
        { sandwich_id
          profit
          input_amount := st.frontrun_input_amount
          output_amount := actual_output
          timestamp := now })

/-- Property of a front-run size adopted by the CPMM bounded search: the quotes
of the loop body succeed for it and the recomputed victim price impact after a
front-run of this size, in the loop's own arithmetic, stays within the safety
ceiling. Sizes the loop adopts as best satisfy this; the initial estimate needs
not. -/
def cpmm_candidate_within (trade_fee_rate protocol_fee_rate fund_fee_rate
    reserve_in reserve_out safe_slippage_bps target_amount_in mid : Nat) : Prop :=
  ∃ fr tb ta : SwapResult,
    CurveCalculator.swap_base_input mid reserve_in reserve_out
      trade_fee_rate protocol_fee_rate fund_fee_rate = some fr ∧
    CurveCalculator.swap_base_input target_amount_in reserve_in reserve_out
      trade_fee_rate protocol_fee_rate fund_fee_rate = some tb ∧
    CurveCalculator.swap_base_input target_amount_in
      (reserve_in + fr.source_amount_swapped)
      (wsub128 reserve_out fr.destination_amount_swapped)
      trade_fee_rate protocol_fee_rate fund_fee_rate = some ta ∧
    tb.destination_amount_swapped ≠ 0 ∧
    wmul128 (wsub128 tb.destination_amount_swapped ta.destination_amount_swapped)
      10000 / tb.destination_amount_swapped ≤ safe_slippage_bps

/-- Test fixture: a finalized record, used to exercise the replay guards. -/
def completed_record : SandwichState :=
  { frontrun_output_amount := 5
    frontrun_input_amount := 7
    sandwich_id := 9
    is_complete := true
    token_in_mint := 3
    token_out_mint := 4
    timestamp := 11
    bump := 1 }

/-- Test fixture: a pending record as a pumpswap front-run sell would leave it,
token_in_mint the base mint 3 and token_out_mint the quote mint 4. -/
def pending_record : SandwichState :=
  { frontrun_output_amount := 5
    frontrun_input_amount := 100
    sandwich_id := 9
    is_complete := false
    token_in_mint := 3
    token_out_mint := 4
    timestamp := 11
    bump := 1 }

/-- Test fixture: a pending record with a zero recorded front-run output. -/
def zero_output_record : SandwichState :=
  { frontrun_output_amount := 0
    frontrun_input_amount := 50
    sandwich_id := 9
    is_complete := false
    token_in_mint := 3
    token_out_mint := 4
    timestamp := 11
    bump := 1 }

/-- Test fixture: the record the AMM front-run writes in the concrete scenarios
below; every field of the loaded or fresh account is overwritten, so the same
record results from any prior state. -/
def amm_reset_record : SandwichState :=
  { frontrun_output_amount := 0
    frontrun_input_amount := 0
    sandwich_id := 9
    is_complete := false
    token_in_mint := native_mint
    token_out_mint := 3
    timestamp := 11
    bump := 1 }

/-- Test fixture: the record the PumpFun front-run buy writes in the concrete
scenario below; token_in_mint keeps the zeroed account value because the
handler never writes it. -/
def pumpfun_record : SandwichState :=
  { frontrun_output_amount := 89
    frontrun_input_amount := 0
    sandwich_id := 9
    is_complete := false
    token_in_mint := 0
    token_out_mint := 3
    timestamp := 11
    bump := 1 }

/-- Test fixture: a balanced zero-fee CPMM pool of 100000 and 100000 with the
passed vaults in the direct orientation. -/
def cex_pool_args : CpmmArgs :=
  { token_0_vault := 10
    token_1_vault := 11
    input_vault_key := 10
    output_vault_key := 11
    input_vault_amount := 100000
    output_vault_amount := 100000
    protocol_fees_token_0 := 0
    fund_fees_token_0 := 0
    protocol_fees_token_1 := 0
    fund_fees_token_1 := 0
    trade_fee_rate := 0
    protocol_fee_rate := 0
    fund_fee_rate := 0 }

/-- Test fixture: a small balanced zero-fee CPMM pool of 5000 and 5000, whose
fallback initial estimate 50 sits below the dust floor. -/
def dust_pool_args : CpmmArgs :=
  { token_0_vault := 10
    token_1_vault := 11
    input_vault_key := 10
    output_vault_key := 11
    input_vault_amount := 5000
    output_vault_amount := 5000
    protocol_fees_token_0 := 0
    fund_fees_token_0 := 0
    protocol_fees_token_1 := 0
    fund_fees_token_1 := 0
    trade_fee_rate := 0
    protocol_fee_rate := 0
    fund_fee_rate := 0 }

/-- Test fixture: a small pumpswap pool with matching derived token addresses
and zero configured fees. -/
def dust_pumpswap_args : PumpSwapSellArgs :=
  { ata_of_base := 20
    ata_of_quote := 21
    pool_base_token_key := 20
    pool_quote_token_key := 21
    pool_base_amount := 5000
    pool_quote_amount := 5000
    coin_creator_fee_basis_points := 0
    protocol_fee_basis_points := 0
    lp_fee_basis_points := 0 }

/-- Test fixture: a pending record with a large recorded front-run output, so
that a CPMM back-run quote against the balanced test pool clears the profit
floor. -/
def profitable_record : SandwichState :=
  { frontrun_output_amount := 1000
    frontrun_input_amount := 100
    sandwich_id := 9
    is_complete := false
    token_in_mint := 3
    token_out_mint := 4
    timestamp := 11
    bump := 1 }

/-! Helper lemmas about the finalize handlers: a successful finalize consumed a
record whose completion flag was false and returns it with the flag set. -/

/-- Inversion of a successful Except bind. -/
theorem bind_ok_inv {α β : Type} (x : Except Fail α) (f : α → Except Fail β)
    (b : β) (h : (x >>= f) = .ok b) : ∃ a, x = .ok a ∧ f a = .ok b := by
  cases x with
  | error e => simp [Bind.bind, Except.bind] at h
  | ok a => exact ⟨a, rfl, by simpa [Bind.bind, Except.bind] using h⟩

theorem amm_backrun_ok_flip (st : SandwichState) (pm tb sa sid : Nat) (now : Int)
    (st2 : SandwichState) (ev : SandwichCompleteEvent)
    (h : amm_backrun_swap_base_in st pm tb sa sid now = .ok (st2, ev)) :
    st.is_complete = false ∧ st2.is_complete = true := by
  by_cases hc : st.is_complete
  · simp [amm_backrun_swap_base_in, hc] at h
  · have hcf : st.is_complete = false := by simpa using hc
    refine ⟨hcf, ?_⟩
    simp [amm_backrun_swap_base_in, hc] at h
    obtain ⟨h1, -⟩ := h
    rw [← h1]

theorem pumpswap_backrun_buy_ok_flip (st : SandwichState) (bm qm b1 b2 : Nat)
    (now : Int) (st2 : SandwichState) (ev : SandwichCompleteEvent)
    (h : pumpswap_backrun_buy st bm qm b1 b2 now = .ok (st2, ev)) :
    st.is_complete = false ∧ st2.is_complete = true := by
  by_cases hc : st.is_complete
  · simp [pumpswap_backrun_buy, hc] at h
  · have hcf : st.is_complete = false := by simpa using hc
    refine ⟨hcf, ?_⟩
    simp [pumpswap_backrun_buy, hc] at h
    split_ifs at h <;> simp_all
    obtain ⟨h1, -⟩ := h
    rw [← h1]

theorem pumpswap_backrun_sell_ok_flip (st : SandwichState) (bm qm b1 b2 : Nat)
    (now : Int) (st2 : SandwichState) (ev : SandwichCompleteEvent)
    (h : pumpswap_backrun_sell st bm qm b1 b2 now = .ok (st2, ev)) :
    st.is_complete = false ∧ st2.is_complete = true := by
  by_cases hc : st.is_complete
  · simp [pumpswap_backrun_sell, hc] at h
  · have hcf : st.is_complete = false := by simpa using hc
    refine ⟨hcf, ?_⟩
    simp [pumpswap_backrun_sell, hc] at h
    split_ifs at h <;> simp_all
    all_goals (obtain ⟨h1, -⟩ := h; rw [← h1])

theorem pumpfun_backrun_buy_ok_flip (st : SandwichState) (pm b1 b2 sid : Nat)
    (now : Int) (st2 : SandwichState) (ev : SandwichCompleteEvent)
    (h : pumpfun_backrun_buy st pm b1 b2 sid now = .ok (st2, ev)) :
    st.is_complete = false ∧ st2.is_complete = true := by
  by_cases hc : st.is_complete
  · simp [pumpfun_backrun_buy, hc] at h
  · have hcf : st.is_complete = false := by simpa using hc
    refine ⟨hcf, ?_⟩
    simp [pumpfun_backrun_buy, hc] at h
    split_ifs at h <;> simp_all
    obtain ⟨h1, -⟩ := h
    rw [← h1]

theorem cpmm_backrun_input_ok_flip (st : SandwichState) (a : CpmmArgs)
    (im om b1 b2 sid : Nat) (now : Int)
    (st2 : SandwichState) (ev : SandwichCompleteEvent)
    (h : cpmm_backrun_swap_base_input st a im om b1 b2 sid now = .ok (st2, ev)) :
    st.is_complete = false ∧ st2.is_complete = true := by
  by_cases hc : st.is_complete
  · simp [cpmm_backrun_swap_base_input, hc] at h
  · have hcf : st.is_complete = false := by simpa using hc
    refine ⟨hcf, ?_⟩
    simp only [cpmm_backrun_swap_base_input] at h
    split_ifs at h <;> try simp at h
    obtain ⟨r, hr, h⟩ := bind_ok_inv _ _ _ h
    obtain ⟨ex, hex, h⟩ := bind_ok_inv _ _ _ h
    cases hm : checkedMul64 st.frontrun_input_amount 1005 with
    | none => rw [hm] at h; simp [bind, Except.bind] at h
    | some mv =>
      rw [hm] at h
      simp only [bind, Except.bind] at h
      split_ifs at h <;> simp at h
      all_goals (obtain ⟨hx, -⟩ := h; rw [← hx])

theorem cpmm_backrun_output_ok_flip (st : SandwichState) (a : CpmmArgs)
    (im om b1 b2 sid : Nat) (now : Int)
    (st2 : SandwichState) (ev : SandwichCompleteEvent)
    (h : cpmm_backrun_swap_base_output st a im om b1 b2 sid now = .ok (st2, ev)) :
    st.is_complete = false ∧ st2.is_complete = true := by
  by_cases hc : st.is_complete
  · simp [cpmm_backrun_swap_base_output, hc] at h
  · have hcf : st.is_complete = false := by simpa using hc
    refine ⟨hcf, ?_⟩
    simp only [cpmm_backrun_swap_base_output] at h
    split_ifs at h <;> try simp at h
    obtain ⟨r, hr, h⟩ := bind_ok_inv _ _ _ h
    cases hm : checkedMul64 st.frontrun_input_amount 1005 with
    | none => rw [hm] at h; simp [bind, Except.bind] at h
    | some mv =>
      rw [hm] at h
      simp only [bind, Except.bind] at h
      simp at h
      obtain ⟨hx, -⟩ := h
      rw [← hx]

theorem clmm_backrun_ok_flip (st : SandwichState)
    (pim pom nu ot tm0 p : Nat) (tick : Int) (L tf pf ff : Nat)
    (ispl : Bool) (ifee : Nat) (ospl : Bool) (ofee : Nat)
    (b1 b2 sid : Nat) (now : Int)
    (st2 : SandwichState) (ev : SandwichCompleteEvent)
    (h : clmm_backrun_swap st pim pom nu ot tm0 p tick L tf pf ff
      ispl ifee ospl ofee b1 b2 sid now = .ok (st2, ev)) :
    st.is_complete = false ∧ st2.is_complete = true := by
  by_cases hc : st.is_complete
  · simp [clmm_backrun_swap, hc] at h
  · have hcf : st.is_complete = false := by simpa using hc
    refine ⟨hcf, ?_⟩
    simp only [clmm_backrun_swap] at h
    split_ifs at h <;> try simp at h
    all_goals obtain ⟨ro, hro, h⟩ := bind_ok_inv _ _ _ h
    all_goals
      cases hm : checkedMul64 st.frontrun_input_amount 1005 <;> rw [hm] at h <;>
        simp only [bind, Except.bind] at h <;> try split_ifs at h
    all_goals simp at h
    all_goals (obtain ⟨hx, -⟩ := h; rw [← hx])

/-- C1: every back-run or finalize instruction invoked on a record whose
is_complete flag is true fails with SandwichAlreadyCompleted, in each venue
family (Raydium AMM, CPMM base-input and base-output, CLMM, PumpSwap buy and
sell, PumpFun); the failure is an account constraint or pre-swap check, so the
aborted transaction leaves the record unchanged. Conversely every successful
finalize consumes a record whose flag was false and returns it with the flag
true, so the flag is flipped false to true by at most one successful finalize
per record. -/
theorem c1_finalize_replay_protected :
    (∀ st : SandwichState, st.is_complete = true →
      (∀ pm tb sa sid now, amm_backrun_swap_base_in st pm tb sa sid now =
        .error (.code .SandwichAlreadyCompleted)) ∧
      (∀ a im om b1 b2 sid now, cpmm_backrun_swap_base_input st a im om b1 b2 sid now =
        .error (.code .SandwichAlreadyCompleted)) ∧
      (∀ a im om b1 b2 sid now, cpmm_backrun_swap_base_output st a im om b1 b2 sid now =
        .error (.code .SandwichAlreadyCompleted)) ∧
      (∀ pim pom nu ot tm0 p tick L tf pf ff ispl ifee ospl ofee b1 b2 sid now,
        clmm_backrun_swap st pim pom nu ot tm0 p tick L tf pf ff ispl ifee ospl ofee
          b1 b2 sid now = .error (.code .SandwichAlreadyCompleted)) ∧
      (∀ bm qm b1 b2 now, pumpswap_backrun_buy st bm qm b1 b2 now =
        .error (.code .SandwichAlreadyCompleted)) ∧
      (∀ bm qm b1 b2 now, pumpswap_backrun_sell st bm qm b1 b2 now =
        .error (.code .SandwichAlreadyCompleted)) ∧
      (∀ pm b1 b2 sid now, pumpfun_backrun_buy st pm b1 b2 sid now =
        .error (.code .SandwichAlreadyCompleted))) ∧
    (∀ st pm tb sa sid now st2 ev,
      amm_backrun_swap_base_in st pm tb sa sid now = .ok (st2, ev) →
      st.is_complete = false ∧ st2.is_complete = true) ∧
    (∀ st a im om b1 b2 sid now st2 ev,
      cpmm_backrun_swap_base_input st a im om b1 b2 sid now = .ok (st2, ev) →
      st.is_complete = false ∧ st2.is_complete = true) ∧
    (∀ st a im om b1 b2 sid now st2 ev,
      cpmm_backrun_swap_base_output st a im om b1 b2 sid now = .ok (st2, ev) →
      st.is_complete = false ∧ st2.is_complete = true) ∧
    (∀ st pim pom nu ot tm0 p tick L tf pf ff ispl ifee ospl ofee b1 b2 sid now st2 ev,
      clmm_backrun_swap st pim pom nu ot tm0 p tick L tf pf ff ispl ifee ospl ofee
        b1 b2 sid now = .ok (st2, ev) →
      st.is_complete = false ∧ st2.is_complete = true) ∧
    (∀ st bm qm b1 b2 now st2 ev,
      pumpswap_backrun_buy st bm qm b1 b2 now = .ok (st2, ev) →
      st.is_complete = false ∧ st2.is_complete = true) ∧
    (∀ st bm qm b1 b2 now st2 ev,
      pumpswap_backrun_sell st bm qm b1 b2 now = .ok (st2, ev) →
      st.is_complete = false ∧ st2.is_complete = true) ∧
    (∀ st pm b1 b2 sid now st2 ev,
      pumpfun_backrun_buy st pm b1 b2 sid now = .ok (st2, ev) →
      st.is_complete = false ∧ st2.is_complete = true) := by
  refine ⟨?_, ?_, ?_, ?_, ?_, ?_, ?_, ?_⟩
  · intro st hc
    refine ⟨?_, ?_, ?_, ?_, ?_, ?_, ?_⟩
    · intro pm tb sa sid now; simp [amm_backrun_swap_base_in, hc]
    · intro a im om b1 b2 sid now; simp [cpmm_backrun_swap_base_input, hc]
    · intro a im om b1 b2 sid now; simp [cpmm_backrun_swap_base_output, hc]
    · intro pim pom nu ot tm0 p tick L tf pf ff ispl ifee ospl ofee b1 b2 sid now
      simp [clmm_backrun_swap, hc]
    · intro bm qm b1 b2 now; simp [pumpswap_backrun_buy, hc]
    · intro bm qm b1 b2 now; simp [pumpswap_backrun_sell, hc]
    · intro pm b1 b2 sid now; simp [pumpfun_backrun_buy, hc]
  · intro st pm tb sa sid now st2 ev h
    exact amm_backrun_ok_flip st pm tb sa sid now st2 ev h
  · intro st a im om b1 b2 sid now st2 ev h
    exact cpmm_backrun_input_ok_flip st a im om b1 b2 sid now st2 ev h
  · intro st a im om b1 b2 sid now st2 ev h
    exact cpmm_backrun_output_ok_flip st a im om b1 b2 sid now st2 ev h
  · intro st pim pom nu ot tm0 p tick L tf pf ff ispl ifee ospl ofee b1 b2 sid now st2 ev h
    exact clmm_backrun_ok_flip st pim pom nu ot tm0 p tick L tf pf ff ispl ifee ospl
      ofee b1 b2 sid now st2 ev h
  · intro st bm qm b1 b2 now st2 ev h
    exact pumpswap_backrun_buy_ok_flip st bm qm b1 b2 now st2 ev h
  · intro st bm qm b1 b2 now st2 ev h
    exact pumpswap_backrun_sell_ok_flip st bm qm b1 b2 now st2 ev h
  · intro st pm b1 b2 sid now st2 ev h
    exact pumpfun_backrun_buy_ok_flip st pm b1 b2 sid now st2 ev h

/-- Witness for C1: the fixture completed record is complete, and the AMM and
PumpSwap back-runs reject it with SandwichAlreadyCompleted. -/
theorem c1_witness :
    completed_record.is_complete = true ∧
    amm_backrun_swap_base_in completed_record 0 0 0 0 0 =
      .error (.code .SandwichAlreadyCompleted) ∧
    pumpswap_backrun_buy completed_record 3 4 0 0 0 =
      .error (.code .SandwichAlreadyCompleted) :=
  ⟨rfl, (c1_finalize_replay_protected.1 completed_record rfl).1 0 0 0 0 0,
    (c1_finalize_replay_protected.1 completed_record rfl).2.2.2.2.1 3 4 0 0 0⟩

/-! Helper lemmas enumerating the failures each function can produce. -/

/-- Inversion of a failed Except bind. -/
theorem bind_error_inv {α β : Type} (x : Except Fail α) (f : α → Except Fail β)
    (e : Fail) (h : (x >>= f) = .error e) :
    x = .error e ∨ ∃ a, x = .ok a ∧ f a = .error e := by
  cases x with
  | error e2 =>
      left
      simpa [Bind.bind, Except.bind] using h
  | ok a =>
      right
      exact ⟨a, rfl, by simpa [Bind.bind, Except.bind] using h⟩

theorem vault_amount_without_fee_error_cases (p0 f0 p1 f1 v0 v1 : Nat) (e : Fail)
    (h : vault_amount_without_fee p0 f0 p1 f1 v0 v1 = .error e) : e = .panic := by
  simp only [vault_amount_without_fee] at h
  split_ifs at h <;> simp_all

theorem cpmm_resolve_reserves_error_cases (a : CpmmArgs) (e : Fail)
    (h : cpmm_resolve_reserves a = .error e) :
    e = .code .InvalidVault ∨ e = .panic := by
  simp only [cpmm_resolve_reserves] at h
  split_ifs at h
  · rcases bind_error_inv _ _ _ h with hv | ⟨v, -, hv⟩
    · exact .inr (vault_amount_without_fee_error_cases _ _ _ _ _ _ _ hv)
    · simp at hv
  · rcases bind_error_inv _ _ _ h with hv | ⟨v, -, hv⟩
    · exact .inr (vault_amount_without_fee_error_cases _ _ _ _ _ _ _ hv)
    · simp at hv
  · simp at h
    simp [← h]

theorem calculate_expected_output_error_cases (ai ri ro tf pf ff : Nat) (e : Fail)
    (h : calculate_expected_output ai ri ro tf pf ff = .error e) :
    e = .code .CalculationFailure := by
  simp only [calculate_expected_output] at h
  split at h <;> try split_ifs at h
  all_goals simp_all

theorem amm_backrun_error_cases (st : SandwichState) (pm tb sa sid : Nat)
    (now : Int) (e : Fail)
    (h : amm_backrun_swap_base_in st pm tb sa sid now = .error e) :
    e = .code .SandwichAlreadyCompleted := by
  simp only [amm_backrun_swap_base_in] at h
  split_ifs at h <;> simp_all

theorem pumpfun_backrun_error_cases (st : SandwichState) (pm b1 b2 sid : Nat)
    (now : Int) (e : Fail)
    (h : pumpfun_backrun_buy st pm b1 b2 sid now = .error e) :
    e = .code .SandwichAlreadyCompleted ∨ e = .code .TokenMintMismatch := by
  simp only [pumpfun_backrun_buy] at h
  split_ifs at h <;> simp_all

theorem pumpswap_backrun_buy_error_cases (st : SandwichState) (bm qm b1 b2 : Nat)
    (now : Int) (e : Fail)
    (h : pumpswap_backrun_buy st bm qm b1 b2 now = .error e) :
    e = .code .SandwichAlreadyCompleted ∨ e = .code .TokenMintMismatch ∨
    e = .code .EmptySupply := by
  simp only [pumpswap_backrun_buy] at h
  split_ifs at h <;> simp_all

theorem pumpswap_backrun_sell_error_cases (st : SandwichState) (bm qm b1 b2 : Nat)
    (now : Int) (e : Fail)
    (h : pumpswap_backrun_sell st bm qm b1 b2 now = .error e) :
    e = .code .SandwichAlreadyCompleted ∨ e = .code .TokenMintMismatch ∨
    e = .code .EmptySupply := by
  simp only [pumpswap_backrun_sell] at h
  split_ifs at h <;> simp_all

theorem cpmm_backrun_input_error_cases (st : SandwichState) (a : CpmmArgs)
    (im om b1 b2 sid : Nat) (now : Int) (e : Fail)
    (h : cpmm_backrun_swap_base_input st a im om b1 b2 sid now = .error e) :
    e = .code .SandwichAlreadyCompleted ∨ e = .code .TokenMintMismatch ∨
    e = .code .InvalidVault ∨ e = .panic ∨ e = .code .CalculationFailure ∨
    e = .code .UnprofitableSandwich := by
  simp only [cpmm_backrun_swap_base_input] at h
  split_ifs at h <;> try (injection h with he; subst he; simp)
  rcases bind_error_inv _ _ _ h with hr | ⟨r, -, h⟩
  · rcases cpmm_resolve_reserves_error_cases _ _ hr with he | he <;> simp [he]
  · rcases bind_error_inv _ _ _ h with hx | ⟨ex, -, h⟩
    · simp [calculate_expected_output_error_cases _ _ _ _ _ _ _ hx]
    · cases hm : checkedMul64 st.frontrun_input_amount 1005 <;> rw [hm] at h <;>
        simp only [bind, Except.bind] at h
      · injection h with he; subst he; simp
      · split_ifs at h <;> (injection h with he; subst he; simp)

theorem cpmm_backrun_output_error_cases (st : SandwichState) (a : CpmmArgs)
    (im om b1 b2 sid : Nat) (now : Int) (e : Fail)
    (h : cpmm_backrun_swap_base_output st a im om b1 b2 sid now = .error e) :
    e = .code .SandwichAlreadyCompleted ∨ e = .code .TokenMintMismatch ∨
    e = .code .InvalidVault ∨ e = .panic ∨ e = .code .CalculationFailure := by
  simp only [cpmm_backrun_swap_base_output] at h
  split_ifs at h <;> try (injection h with he; subst he; simp)
  rcases bind_error_inv _ _ _ h with hr | ⟨r, -, h⟩
  · rcases cpmm_resolve_reserves_error_cases _ _ hr with he | he <;> simp [he]
  · cases hm : checkedMul64 st.frontrun_input_amount 1005 <;> rw [hm] at h <;>
      simp only [bind, Except.bind] at h
    · injection h with he; subst he; simp
    · simp at h

theorem mul_div_error_cases (a b d : Nat) (e : Fail)
    (h : mul_div a b d = .error e) : e = .code .CalculationFailure := by
  simp only [mul_div] at h
  split_ifs at h
  · simp_all
  · split at h <;> simp_all

theorem mul_div_ceil_error_cases (a b d : Nat) (e : Fail)
    (h : mul_div_ceil a b d = .error e) :
    e = .code .CalculationFailure ∨ e = .panic := by
  simp only [mul_div_ceil] at h
  split at h <;> try split_ifs at h
  all_goals simp_all

theorem sqrt_price_after_amount_in_error_cases (p L ai : Nat) (z : Bool) (e : Fail)
    (h : sqrt_price_after_amount_in p L ai z = .error e) :
    e = .code .CalculationFailure := by
  simp only [sqrt_price_after_amount_in] at h
  split_ifs at h
  · rcases bind_error_inv _ _ _ h with hm | ⟨v, -, h⟩
    · exact mul_div_error_cases _ _ _ _ hm
    · split_ifs at h
      · simp_all
      · exact mul_div_error_cases _ _ _ _ h
  · rcases bind_error_inv _ _ _ h with hm | ⟨v, -, h⟩
    · exact mul_div_error_cases _ _ _ _ hm
    · simp_all

theorem simulate_clmm_swap_output_error_cases (p : Nat) (tick : Int)
    (L ai : Nat) (z : Bool) (tf pf ff : Nat) (e : Fail)
    (h : simulate_clmm_swap_output p tick L ai z tf pf ff = .error e) :
    e = .code .CalculationFailure ∨ e = .panic := by
  simp only [simulate_clmm_swap_output] at h
  split_ifs at h
  · rcases bind_error_inv _ _ _ h with hs | ⟨np, -, h⟩
    · exact .inl (sqrt_price_after_amount_in_error_cases _ _ _ _ _ hs)
    · split_ifs at h
      · rcases bind_error_inv _ _ _ h with hd | ⟨dv, -, h⟩
        · exact .inl (mul_div_error_cases _ _ _ _ hd)
        · simp [bind, Except.bind] at h
      · simp [bind, Except.bind] at h
  · rcases bind_error_inv _ _ _ h with hs | ⟨np, -, h⟩
    · exact .inl (sqrt_price_after_amount_in_error_cases _ _ _ _ _ hs)
    · split_ifs at h
      · rcases bind_error_inv _ _ _ h with hd | ⟨hv, -, h⟩
        · exact .inl (mul_div_error_cases _ _ _ _ hd)
        · rcases bind_error_inv _ _ _ h with hd2 | ⟨lv, -, h⟩
          · exact .inl (mul_div_error_cases _ _ _ _ hd2)
          · simp [bind, Except.bind] at h
      · simp [bind, Except.bind] at h

theorem clmm_backrun_error_cases (st : SandwichState)
    (pim pom nu ot tm0 p : Nat) (tick : Int) (L tf pf ff : Nat)
    (ispl : Bool) (ifee : Nat) (ospl : Bool) (ofee : Nat)
    (b1 b2 sid : Nat) (now : Int) (e : Fail)
    (h : clmm_backrun_swap st pim pom nu ot tm0 p tick L tf pf ff
      ispl ifee ospl ofee b1 b2 sid now = .error e) :
    e = .code .SandwichAlreadyCompleted ∨ e = .code .TokenMintMismatch ∨
    e = .anchor ∨ e = .code .CalculationFailure ∨ e = .panic ∨
    e = .code .UnprofitableSandwich := by
  simp only [clmm_backrun_swap] at h
  split_ifs at h <;> try (injection h with he; subst he; simp)
  all_goals (
    rcases bind_error_inv _ _ _ h with hs | ⟨ro, -, h⟩
    · rcases simulate_clmm_swap_output_error_cases _ _ _ _ _ _ _ _ _ hs with he | he <;>
        simp [he]
    · cases hm : checkedMul64 st.frontrun_input_amount 1005 <;> rw [hm] at h <;>
        simp only [bind, Except.bind] at h
      · injection h with he; subst he; simp
      · split_ifs at h <;> (injection h with he; subst he; simp))

/-! Helper lemmas: a TokenMintMismatch failure can only come from the mint
guards, so it implies the corresponding mismatch. -/

theorem cpmm_backrun_input_tmm_inv (st : SandwichState) (a : CpmmArgs)
    (im om b1 b2 sid : Nat) (now : Int)
    (h : cpmm_backrun_swap_base_input st a im om b1 b2 sid now =
      .error (.code .TokenMintMismatch)) :
    st.token_in_mint ≠ om ∨ st.token_out_mint ≠ im := by
  simp only [cpmm_backrun_swap_base_input] at h
  split_ifs at h <;> try tauto
  all_goals try (exfalso; injection h with he; simp at he)
  exfalso
  rcases bind_error_inv _ _ _ h with hr | ⟨r, -, h⟩
  · rcases cpmm_resolve_reserves_error_cases _ _ hr with he | he <;> simp at he
  · rcases bind_error_inv _ _ _ h with hx | ⟨ex, -, h⟩
    · have he := calculate_expected_output_error_cases _ _ _ _ _ _ _ hx
      simp at he
    · cases hm : checkedMul64 st.frontrun_input_amount 1005 <;> rw [hm] at h <;>
        simp only [bind, Except.bind] at h
      · injection h with he; simp at he
      · split_ifs at h <;> simp at h

theorem cpmm_backrun_output_tmm_inv (st : SandwichState) (a : CpmmArgs)
    (im om b1 b2 sid : Nat) (now : Int)
    (h : cpmm_backrun_swap_base_output st a im om b1 b2 sid now =
      .error (.code .TokenMintMismatch)) :
    st.token_in_mint ≠ om ∨ st.token_out_mint ≠ im := by
  simp only [cpmm_backrun_swap_base_output] at h
  split_ifs at h <;> try tauto
  all_goals try (exfalso; injection h with he; simp at he)
  exfalso
  rcases bind_error_inv _ _ _ h with hr | ⟨r, -, h⟩
  · rcases cpmm_resolve_reserves_error_cases _ _ hr with he | he <;> simp at he
  · cases hm : checkedMul64 st.frontrun_input_amount 1005 <;> rw [hm] at h <;>
      simp only [bind, Except.bind] at h
    · injection h with he; simp at he
    · simp at h

theorem clmm_backrun_tmm_inv (st : SandwichState)
    (pim pom nu ot tm0 p : Nat) (tick : Int) (L tf pf ff : Nat)
    (ispl : Bool) (ifee : Nat) (ospl : Bool) (ofee : Nat)
    (b1 b2 sid : Nat) (now : Int)
    (h : clmm_backrun_swap st pim pom nu ot tm0 p tick L tf pf ff
      ispl ifee ospl ofee b1 b2 sid now = .error (.code .TokenMintMismatch)) :
    st.token_in_mint ≠ pom ∨ st.token_out_mint ≠ pim := by
  simp only [clmm_backrun_swap] at h
  split_ifs at h <;> try tauto
  all_goals try (exfalso; injection h with he; simp at he)
  all_goals (
    exfalso
    rcases bind_error_inv _ _ _ h with hs | ⟨ro, -, h⟩
    · rcases simulate_clmm_swap_output_error_cases _ _ _ _ _ _ _ _ _ hs with he | he <;>
        simp at he
    · cases hm : checkedMul64 st.frontrun_input_amount 1005 <;> rw [hm] at h <;>
        simp only [bind, Except.bind] at h
      · injection h with he; simp at he
      · split_ifs at h <;> simp at h)

theorem pumpswap_backrun_buy_tmm_inv (st : SandwichState) (bm qm b1 b2 : Nat)
    (now : Int)
    (h : pumpswap_backrun_buy st bm qm b1 b2 now =
      .error (.code .TokenMintMismatch)) :
    st.token_in_mint ≠ bm ∨ st.token_out_mint ≠ qm := by
  simp only [pumpswap_backrun_buy] at h
  split_ifs at h <;> first | tauto | (exfalso; injection h with he; simp at he)

theorem pumpswap_backrun_sell_tmm_inv (st : SandwichState) (bm qm b1 b2 : Nat)
    (now : Int)
    (h : pumpswap_backrun_sell st bm qm b1 b2 now =
      .error (.code .TokenMintMismatch)) :
    st.token_out_mint ≠ bm ∨ st.token_in_mint ≠ qm := by
  simp only [pumpswap_backrun_sell] at h
  split_ifs at h <;> first | tauto | (exfalso; injection h with he; simp at he)

theorem pumpfun_backrun_tmm_inv (st : SandwichState) (pm b1 b2 sid : Nat)
    (now : Int)
    (h : pumpfun_backrun_buy st pm b1 b2 sid now =
      .error (.code .TokenMintMismatch)) :
    st.token_in_mint ≠ pm := by
  simp only [pumpfun_backrun_buy] at h
  split_ifs at h <;> first | tauto | (exfalso; injection h with he; simp at he)

/-! Helper lemmas characterizing the record and event a successful finalize
returns. -/

theorem amm_backrun_ok_spec (st : SandwichState) (pm tb sa sid : Nat) (now : Int)
    (st2 : SandwichState) (ev : SandwichCompleteEvent)
    (h : amm_backrun_swap_base_in st pm tb sa sid now = .ok (st2, ev)) :
    st2 = { st with is_complete := true } ∧
    ev = { sandwich_id := sid, profit := (sa - tb) - st.frontrun_input_amount,
           input_amount := st.frontrun_input_amount, output_amount := sa - tb,
           timestamp := now } := by
  simp only [amm_backrun_swap_base_in] at h
  split_ifs at h <;> simp at h
  obtain ⟨h1, h2⟩ := h
  exact ⟨h1.symm, h2.symm⟩

theorem pumpswap_backrun_buy_ok_spec (st : SandwichState) (bm qm b1 b2 : Nat)
    (now : Int) (st2 : SandwichState) (ev : SandwichCompleteEvent)
    (h : pumpswap_backrun_buy st bm qm b1 b2 now = .ok (st2, ev)) :
    st2 = { st with is_complete := true } ∧
    ev = { sandwich_id := st.sandwich_id,
           profit := (b2 - b1) - st.frontrun_input_amount,
           input_amount := st.frontrun_input_amount, output_amount := b2 - b1,
           timestamp := now } := by
  simp only [pumpswap_backrun_buy] at h
  split_ifs at h <;> simp at h
  obtain ⟨h1, h2⟩ := h
  exact ⟨h1.symm, h2.symm⟩

theorem pumpswap_backrun_sell_ok_spec (st : SandwichState) (bm qm b1 b2 : Nat)
    (now : Int) (st2 : SandwichState) (ev : SandwichCompleteEvent)
    (h : pumpswap_backrun_sell st bm qm b1 b2 now = .ok (st2, ev)) :
    st2 = { st with is_complete := true } ∧
    ev = { sandwich_id := st.sandwich_id,
           profit := if b2 - b1 ≤ st.frontrun_input_amount then
               st.frontrun_input_amount - (b2 - b1)
             else 0,
           input_amount := st.frontrun_input_amount, output_amount := b2 - b1,
           timestamp := now } := by
  simp only [pumpswap_backrun_sell] at h
  split_ifs at h with hg1 hg2 hg3 hp <;> simp at h
  · obtain ⟨h1, h2⟩ := h
    refine ⟨h1.symm, ?_⟩
    rw [if_pos hp]
    exact h2.symm
  · obtain ⟨h1, h2⟩ := h
    refine ⟨h1.symm, ?_⟩
    rw [if_neg hp]
    exact h2.symm

theorem pumpfun_backrun_ok_spec (st : SandwichState) (pm b1 b2 sid : Nat)
    (now : Int) (st2 : SandwichState) (ev : SandwichCompleteEvent)
    (h : pumpfun_backrun_buy st pm b1 b2 sid now = .ok (st2, ev)) :
    st2 = { st with is_complete := true } ∧
    ev = { sandwich_id := sid, profit := (b2 - b1) - st.frontrun_input_amount,
           input_amount := st.frontrun_input_amount, output_amount := b2 - b1,
           timestamp := now } := by
  simp only [pumpfun_backrun_buy] at h
  split_ifs at h <;> simp at h
  obtain ⟨h1, h2⟩ := h
  exact ⟨h1.symm, h2.symm⟩

theorem cpmm_backrun_input_ok_spec (st : SandwichState) (a : CpmmArgs)
    (im om b1 b2 sid : Nat) (now : Int)
    (st2 : SandwichState) (ev : SandwichCompleteEvent)
    (h : cpmm_backrun_swap_base_input st a im om b1 b2 sid now = .ok (st2, ev)) :
    st2 = { st with is_complete := true } ∧
    ev = { sandwich_id := sid, profit := (b2 - b1) - st.frontrun_input_amount,
           input_amount := st.frontrun_input_amount, output_amount := b2 - b1,
           timestamp := now } := by
  simp only [cpmm_backrun_swap_base_input] at h
  split_ifs at h <;> try simp at h
  obtain ⟨r, hr, h⟩ := bind_ok_inv _ _ _ h
  obtain ⟨ex, hex, h⟩ := bind_ok_inv _ _ _ h
  cases hm : checkedMul64 st.frontrun_input_amount 1005 <;> rw [hm] at h <;>
    simp only [bind, Except.bind] at h
  · simp at h
  · split_ifs at h <;> simp at h
    obtain ⟨h1, h2⟩ := h
    exact ⟨h1.symm, h2.symm⟩

theorem cpmm_backrun_output_ok_spec (st : SandwichState) (a : CpmmArgs)
    (im om b1 b2 sid : Nat) (now : Int)
    (st2 : SandwichState) (ev : SandwichCompleteEvent)
    (h : cpmm_backrun_swap_base_output st a im om b1 b2 sid now = .ok (st2, ev)) :
    st2 = { st with is_complete := true } ∧
    ev = { sandwich_id := sid, profit := (b2 - b1) - st.frontrun_input_amount,
           input_amount := st.frontrun_input_amount, output_amount := b2 - b1,
           timestamp := now } := by
  simp only [cpmm_backrun_swap_base_output] at h
  split_ifs at h <;> try simp at h
  obtain ⟨r, hr, h⟩ := bind_ok_inv _ _ _ h
  cases hm : checkedMul64 st.frontrun_input_amount 1005 <;> rw [hm] at h <;>
    simp only [bind, Except.bind] at h
  · simp at h
  · simp at h
    obtain ⟨h1, h2⟩ := h
    exact ⟨h1.symm, h2.symm⟩

theorem clmm_backrun_ok_spec (st : SandwichState)
    (pim pom nu ot tm0 p : Nat) (tick : Int) (L tf pf ff : Nat)
    (ispl : Bool) (ifee : Nat) (ospl : Bool) (ofee : Nat)
    (b1 b2 sid : Nat) (now : Int)
    (st2 : SandwichState) (ev : SandwichCompleteEvent)
    (h : clmm_backrun_swap st pim pom nu ot tm0 p tick L tf pf ff
      ispl ifee ospl ofee b1 b2 sid now = .ok (st2, ev)) :
    b1 ≤ b2 ∧
    st2 = { st with is_complete := true } ∧
    ev = { sandwich_id := sid, profit := (b2 - b1) - st.frontrun_input_amount,
           input_amount := st.frontrun_input_amount, output_amount := b2 - b1,
           timestamp := now } := by
  simp only [clmm_backrun_swap] at h
  split_ifs at h <;> try simp at h
  all_goals obtain ⟨ro, hro, h⟩ := bind_ok_inv _ _ _ h
  all_goals
    cases hm : checkedMul64 st.frontrun_input_amount 1005 <;> rw [hm] at h <;>
      simp only [bind, Except.bind] at h <;> try split_ifs at h
  all_goals simp at h
  all_goals (
    obtain ⟨h1, h2⟩ := h
    refine ⟨by omega, h1.symm, h2.symm⟩)

/-- C5, amended: the CPMM and CLMM back-runs enforce the recorded mints against
the presented mints in reversed direction (recorded token_in_mint against the
presented output mint and recorded token_out_mint against the presented input
mint) and the PumpSwap back-runs enforce them against the base and quote mints,
failing with TokenMintMismatch exactly on a mismatch; but the Raydium AMM
back-run performs no mint check at all and can never fail with
TokenMintMismatch, and the PumpFun back-run checks only token_in_mint, a field
the PumpFun front-run never records. -/
theorem c5_mint_checks :
    (∀ (st : SandwichState) (a : CpmmArgs) (im om b1 b2 sid : Nat) (now : Int),
      st.is_complete = false →
      st.token_in_mint ≠ om ∨ st.token_out_mint ≠ im →
      cpmm_backrun_swap_base_input st a im om b1 b2 sid now =
        .error (.code .TokenMintMismatch)) ∧
    (∀ (st : SandwichState) (a : CpmmArgs) (im om b1 b2 sid : Nat) (now : Int),
      st.token_in_mint = om → st.token_out_mint = im →
      cpmm_backrun_swap_base_input st a im om b1 b2 sid now ≠
        .error (.code .TokenMintMismatch)) ∧
    (∀ (st : SandwichState) (a : CpmmArgs) (im om b1 b2 sid : Nat) (now : Int),
      st.is_complete = false →
      st.token_in_mint ≠ om ∨ st.token_out_mint ≠ im →
      cpmm_backrun_swap_base_output st a im om b1 b2 sid now =
        .error (.code .TokenMintMismatch)) ∧
    (∀ (st : SandwichState) (a : CpmmArgs) (im om b1 b2 sid : Nat) (now : Int),
      st.token_in_mint = om → st.token_out_mint = im →
      cpmm_backrun_swap_base_output st a im om b1 b2 sid now ≠
        .error (.code .TokenMintMismatch)) ∧
    (∀ (st : SandwichState) (pim pom nu ot tm0 p : Nat) (tick : Int)
      (L tf pf ff : Nat) (ispl : Bool) (ifee : Nat) (ospl : Bool) (ofee : Nat)
      (b1 b2 sid : Nat) (now : Int),
      st.is_complete = false →
      st.token_in_mint ≠ pom ∨ st.token_out_mint ≠ pim →
      clmm_backrun_swap st pim pom nu ot tm0 p tick L tf pf ff ispl ifee ospl ofee
        b1 b2 sid now = .error (.code .TokenMintMismatch)) ∧
    (∀ (st : SandwichState) (pim pom nu ot tm0 p : Nat) (tick : Int)
      (L tf pf ff : Nat) (ispl : Bool) (ifee : Nat) (ospl : Bool) (ofee : Nat)
      (b1 b2 sid : Nat) (now : Int),
      st.token_in_mint = pom → st.token_out_mint = pim →
      clmm_backrun_swap st pim pom nu ot tm0 p tick L tf pf ff ispl ifee ospl ofee
        b1 b2 sid now ≠ .error (.code .TokenMintMismatch)) ∧
    (∀ (st : SandwichState) (bm qm b1 b2 : Nat) (now : Int),
      st.is_complete = false →
      st.token_in_mint ≠ bm ∨ st.token_out_mint ≠ qm →
      pumpswap_backrun_buy st bm qm b1 b2 now = .error (.code .TokenMintMismatch)) ∧
    (∀ (st : SandwichState) (bm qm b1 b2 : Nat) (now : Int),
      st.token_in_mint = bm → st.token_out_mint = qm →
      pumpswap_backrun_buy st bm qm b1 b2 now ≠ .error (.code .TokenMintMismatch)) ∧
    (∀ (st : SandwichState) (bm qm b1 b2 : Nat) (now : Int),
      st.is_complete = false →
      st.token_out_mint ≠ bm ∨ st.token_in_mint ≠ qm →
      pumpswap_backrun_sell st bm qm b1 b2 now = .error (.code .TokenMintMismatch)) ∧
    (∀ (st : SandwichState) (bm qm b1 b2 : Nat) (now : Int),
      st.token_out_mint = bm → st.token_in_mint = qm →
      pumpswap_backrun_sell st bm qm b1 b2 now ≠ .error (.code .TokenMintMismatch)) ∧
    (∀ (st : SandwichState) (pm tb sa sid : Nat) (now : Int),
      amm_backrun_swap_base_in st pm tb sa sid now ≠
        .error (.code .TokenMintMismatch)) ∧
    (∀ (st : SandwichState) (pm b1 b2 sid : Nat) (now : Int),
      st.is_complete = false → st.token_in_mint ≠ pm →
      pumpfun_backrun_buy st pm b1 b2 sid now = .error (.code .TokenMintMismatch)) ∧
    (∀ (st : SandwichState) (pm b1 b2 sid : Nat) (now : Int),
      st.token_in_mint = pm →
      pumpfun_backrun_buy st pm b1 b2 sid now ≠ .error (.code .TokenMintMismatch)) := by
  refine ⟨?_, ?_, ?_, ?_, ?_, ?_, ?_, ?_, ?_, ?_, ?_, ?_, ?_⟩
  · intro st a im om b1 b2 sid now hc hmm
    by_cases h1 : st.token_in_mint = om
    · rcases hmm with hmm | hmm
      · exact absurd h1 hmm
      · simp [cpmm_backrun_swap_base_input, hc, h1, hmm]
    · simp [cpmm_backrun_swap_base_input, hc, h1]
  · intro st a im om b1 b2 sid now h1 h2 hcon
    rcases cpmm_backrun_input_tmm_inv _ _ _ _ _ _ _ _ hcon with hx | hx
    · exact hx h1
    · exact hx h2
  · intro st a im om b1 b2 sid now hc hmm
    by_cases h1 : st.token_in_mint = om
    · rcases hmm with hmm | hmm
      · exact absurd h1 hmm
      · simp [cpmm_backrun_swap_base_output, hc, h1, hmm]
    · simp [cpmm_backrun_swap_base_output, hc, h1]
  · intro st a im om b1 b2 sid now h1 h2 hcon
    rcases cpmm_backrun_output_tmm_inv _ _ _ _ _ _ _ _ hcon with hx | hx
    · exact hx h1
    · exact hx h2
  · intro st pim pom nu ot tm0 p tick L tf pf ff ispl ifee ospl ofee b1 b2 sid now hc hmm
    by_cases h1 : st.token_in_mint = pom
    · rcases hmm with hmm | hmm
      · exact absurd h1 hmm
      · simp [clmm_backrun_swap, hc, h1, hmm]
    · simp [clmm_backrun_swap, hc, h1]
  · intro st pim pom nu ot tm0 p tick L tf pf ff ispl ifee ospl ofee b1 b2 sid now
      h1 h2 hcon
    rcases clmm_backrun_tmm_inv _ _ _ _ _ _ _ _ _ _ _ _ _ _ _ _ _ _ _ _ hcon with hx | hx
    · exact hx h1
    · exact hx h2
  · intro st bm qm b1 b2 now hc hmm
    simp [pumpswap_backrun_buy, hc, hmm]
  · intro st bm qm b1 b2 now h1 h2 hcon
    rcases pumpswap_backrun_buy_tmm_inv _ _ _ _ _ _ hcon with hx | hx
    · exact hx h1
    · exact hx h2
  · intro st bm qm b1 b2 now hc hmm
    simp [pumpswap_backrun_sell, hc, hmm]
  · intro st bm qm b1 b2 now h1 h2 hcon
    rcases pumpswap_backrun_sell_tmm_inv _ _ _ _ _ _ hcon with hx | hx
    · exact hx h1
    · exact hx h2
  · intro st pm tb sa sid now hcon
    have he := amm_backrun_error_cases _ _ _ _ _ _ _ hcon
    simp at he
  · intro st pm b1 b2 sid now hc hmm
    simp [pumpfun_backrun_buy, hc, hmm]
  · intro st pm b1 b2 sid now h1 hcon
    exact pumpfun_backrun_tmm_inv _ _ _ _ _ _ hcon h1

/-- Counterexample for C5 as stated: the Raydium AMM back-run presented with a
mint that matches neither recorded mint does not fail with TokenMintMismatch;
it proceeds and succeeds. -/
theorem c5_counterexample :
    pending_record.token_in_mint ≠ 99 ∧ pending_record.token_out_mint ≠ 99 ∧
    amm_backrun_swap_base_in pending_record 99 0 150 9 11 =
      .ok ({ pending_record with is_complete := true },
        { sandwich_id := 9, profit := 50, input_amount := 100,
          output_amount := 150, timestamp := 11 }) := by
  refine ⟨by decide, by decide, by rfl⟩

/-- Witness for C5: a CPMM back-run on the pending fixture with a wrong
presented output mint fails with TokenMintMismatch, and a PumpSwap back-run
presenting exactly the recorded mints does not fail with TokenMintMismatch. -/
theorem c5_witness :
    cpmm_backrun_swap_base_input pending_record cex_pool_args 4 9 0 150 9 11 =
      .error (.code .TokenMintMismatch) ∧
    pumpswap_backrun_buy pending_record 3 4 0 150 11 ≠
      .error (.code .TokenMintMismatch) :=
  ⟨c5_mint_checks.1 pending_record cex_pool_args 4 9 0 150 9 11 rfl
      (Or.inl (by decide)),
    c5_mint_checks.2.2.2.2.2.2.2.1 pending_record 3 4 0 150 11 rfl rfl⟩

/-- C6, amended: only the PumpSwap back-runs guard against a zero recorded
front-run output, failing with EmptySupply before any swap once the completion
and mint checks pass; the Raydium AMM, CPMM, CLMM and PumpFun back-runs perform
no such check and can never return EmptySupply. -/
theorem c6_empty_supply :
    (∀ (st : SandwichState) (bm qm b1 b2 : Nat) (now : Int),
      st.is_complete = false → st.token_in_mint = bm → st.token_out_mint = qm →
      st.frontrun_output_amount = 0 →
      pumpswap_backrun_buy st bm qm b1 b2 now = .error (.code .EmptySupply)) ∧
    (∀ (st : SandwichState) (bm qm b1 b2 : Nat) (now : Int),
      st.is_complete = false → st.token_out_mint = bm → st.token_in_mint = qm →
      st.frontrun_output_amount = 0 →
      pumpswap_backrun_sell st bm qm b1 b2 now = .error (.code .EmptySupply)) ∧
    (∀ (st : SandwichState) (pm tb sa sid : Nat) (now : Int),
      amm_backrun_swap_base_in st pm tb sa sid now ≠ .error (.code .EmptySupply)) ∧
    (∀ (st : SandwichState) (a : CpmmArgs) (im om b1 b2 sid : Nat) (now : Int),
      cpmm_backrun_swap_base_input st a im om b1 b2 sid now ≠
        .error (.code .EmptySupply)) ∧
    (∀ (st : SandwichState) (a : CpmmArgs) (im om b1 b2 sid : Nat) (now : Int),
      cpmm_backrun_swap_base_output st a im om b1 b2 sid now ≠
        .error (.code .EmptySupply)) ∧
    (∀ (st : SandwichState) (pim pom nu ot tm0 p : Nat) (tick : Int)
      (L tf pf ff : Nat) (ispl : Bool) (ifee : Nat) (ospl : Bool) (ofee : Nat)
      (b1 b2 sid : Nat) (now : Int),
      clmm_backrun_swap st pim pom nu ot tm0 p tick L tf pf ff ispl ifee ospl ofee
        b1 b2 sid now ≠ .error (.code .EmptySupply)) ∧
    (∀ (st : SandwichState) (pm b1 b2 sid : Nat) (now : Int),
      pumpfun_backrun_buy st pm b1 b2 sid now ≠ .error (.code .EmptySupply)) := by
  refine ⟨?_, ?_, ?_, ?_, ?_, ?_, ?_⟩
  · intro st bm qm b1 b2 now hc h1 h2 hz
    simp [pumpswap_backrun_buy, hc, h1, h2, hz]
  · intro st bm qm b1 b2 now hc h1 h2 hz
    simp [pumpswap_backrun_sell, hc, h1, h2, hz]
  · intro st pm tb sa sid now hcon
    have he := amm_backrun_error_cases _ _ _ _ _ _ _ hcon
    simp at he
  · intro st a im om b1 b2 sid now hcon
    rcases cpmm_backrun_input_error_cases _ _ _ _ _ _ _ _ _ hcon with
      he | he | he | he | he | he <;> simp at he
  · intro st a im om b1 b2 sid now hcon
    rcases cpmm_backrun_output_error_cases _ _ _ _ _ _ _ _ _ hcon with
      he | he | he | he | he <;> simp at he
  · intro st pim pom nu ot tm0 p tick L tf pf ff ispl ifee ospl ofee b1 b2 sid now hcon
    rcases clmm_backrun_error_cases _ _ _ _ _ _ _ _ _ _ _ _ _ _ _ _ _ _ _ _ _ hcon with
      he | he | he | he | he | he <;> simp at he
  · intro st pm b1 b2 sid now hcon
    rcases pumpfun_backrun_error_cases _ _ _ _ _ _ _ hcon with he | he <;> simp at he

/-- Counterexample for C6 as stated: the Raydium AMM back-run on a record whose
recorded front-run output is zero does not fail with EmptySupply; it proceeds
with the zero-sized swap and succeeds. -/
theorem c6_counterexample :
    zero_output_record.frontrun_output_amount = 0 ∧
    amm_backrun_swap_base_in zero_output_record 99 0 150 9 11 =
      .ok ({ zero_output_record with is_complete := true },
        { sandwich_id := 9, profit := 100, input_amount := 50,
          output_amount := 150, timestamp := 11 }) := by
  refine ⟨by decide, by rfl⟩

/-- Witness for C6: the PumpSwap buy back-run on the zero-output fixture with
matching mints fails with EmptySupply. -/
theorem c6_witness :
    pumpswap_backrun_buy zero_output_record 3 4 0 150 11 =
      .error (.code .EmptySupply) :=
  c6_empty_supply.1 zero_output_record 3 4 0 150 11 rfl rfl rfl rfl

/-- C8, amended: the Raydium CPMM back-runs, the PumpSwap buy back-run and the
PumpFun back-run compute the realized output as the saturating difference after
minus before of one observed output balance and the profit as the saturating
difference realized output minus recorded input, mark the record complete, and
emit exactly sandwich id, profit, input amount, output amount and timestamp;
the Raydium AMM back-run takes the before balance from the destination account
and the after balance from the source account; the CLMM back-run subtracts with
a panicking checked subtraction, so it only succeeds when the balance did not
decrease; and pumpswap_backrun_sell computes profit as recorded input minus
realized output when the realized output does not exceed the recorded input and
zero otherwise, not as the claimed saturating difference. -/
theorem c8_profit_accounting :
    (∀ (st : SandwichState) (a : CpmmArgs) (im om b1 b2 sid : Nat) (now : Int)
      (st2 : SandwichState) (ev : SandwichCompleteEvent),
      cpmm_backrun_swap_base_input st a im om b1 b2 sid now = .ok (st2, ev) →
      st2 = { st with is_complete := true } ∧
      ev = { sandwich_id := sid, profit := (b2 - b1) - st.frontrun_input_amount,
             input_amount := st.frontrun_input_amount, output_amount := b2 - b1,
             timestamp := now }) ∧
    (∀ (st : SandwichState) (a : CpmmArgs) (im om b1 b2 sid : Nat) (now : Int)
      (st2 : SandwichState) (ev : SandwichCompleteEvent),
      cpmm_backrun_swap_base_output st a im om b1 b2 sid now = .ok (st2, ev) →
      st2 = { st with is_complete := true } ∧
      ev = { sandwich_id := sid, profit := (b2 - b1) - st.frontrun_input_amount,
             input_amount := st.frontrun_input_amount, output_amount := b2 - b1,
             timestamp := now }) ∧
    (∀ (st : SandwichState) (bm qm b1 b2 : Nat) (now : Int)
      (st2 : SandwichState) (ev : SandwichCompleteEvent),
      pumpswap_backrun_buy st bm qm b1 b2 now = .ok (st2, ev) →
      st2 = { st with is_complete := true } ∧
      ev = { sandwich_id := st.sandwich_id,
             profit := (b2 - b1) - st.frontrun_input_amount,
             input_amount := st.frontrun_input_amount, output_amount := b2 - b1,
             timestamp := now }) ∧
    (∀ (st : SandwichState) (pm b1 b2 sid : Nat) (now : Int)
      (st2 : SandwichState) (ev : SandwichCompleteEvent),
      pumpfun_backrun_buy st pm b1 b2 sid now = .ok (st2, ev) →
      st2 = { st with is_complete := true } ∧
      ev = { sandwich_id := sid, profit := (b2 - b1) - st.frontrun_input_amount,
             input_amount := st.frontrun_input_amount, output_amount := b2 - b1,
             timestamp := now }) ∧
    (∀ (st : SandwichState) (pm tb sa sid : Nat) (now : Int)
      (st2 : SandwichState) (ev : SandwichCompleteEvent),
      amm_backrun_swap_base_in st pm tb sa sid now = .ok (st2, ev) →
      st2 = { st with is_complete := true } ∧
      ev = { sandwich_id := sid, profit := (sa - tb) - st.frontrun_input_amount,
             input_amount := st.frontrun_input_amount, output_amount := sa - tb,
             timestamp := now }) ∧
    (∀ (st : SandwichState) (pim pom nu ot tm0 p : Nat) (tick : Int)
      (L tf pf ff : Nat) (ispl : Bool) (ifee : Nat) (ospl : Bool) (ofee : Nat)
      (b1 b2 sid : Nat) (now : Int)
      (st2 : SandwichState) (ev : SandwichCompleteEvent),
      clmm_backrun_swap st pim pom nu ot tm0 p tick L tf pf ff ispl ifee ospl ofee
        b1 b2 sid now = .ok (st2, ev) →
      b1 ≤ b2 ∧ st2 = { st with is_complete := true } ∧
      ev = { sandwich_id := sid, profit := (b2 - b1) - st.frontrun_input_amount,
             input_amount := st.frontrun_input_amount, output_amount := b2 - b1,
             timestamp := now }) ∧
    (∀ (st : SandwichState) (bm qm b1 b2 : Nat) (now : Int)
      (st2 : SandwichState) (ev : SandwichCompleteEvent),
      pumpswap_backrun_sell st bm qm b1 b2 now = .ok (st2, ev) →
      st2 = { st with is_complete := true } ∧
      ev = { sandwich_id := st.sandwich_id,
             profit := if b2 - b1 ≤ st.frontrun_input_amount then
                 st.frontrun_input_amount - (b2 - b1)
               else 0,
             input_amount := st.frontrun_input_amount, output_amount := b2 - b1,
             timestamp := now }) := by
  refine ⟨?_, ?_, ?_, ?_, ?_, ?_, ?_⟩
  · intro st a im om b1 b2 sid now st2 ev h
    exact cpmm_backrun_input_ok_spec st a im om b1 b2 sid now st2 ev h
  · intro st a im om b1 b2 sid now st2 ev h
    exact cpmm_backrun_output_ok_spec st a im om b1 b2 sid now st2 ev h
  · intro st bm qm b1 b2 now st2 ev h
    exact pumpswap_backrun_buy_ok_spec st bm qm b1 b2 now st2 ev h
  · intro st pm b1 b2 sid now st2 ev h
    exact pumpfun_backrun_ok_spec st pm b1 b2 sid now st2 ev h
  · intro st pm tb sa sid now st2 ev h
    exact amm_backrun_ok_spec st pm tb sa sid now st2 ev h
  · intro st pim pom nu ot tm0 p tick L tf pf ff ispl ifee ospl ofee b1 b2 sid now
      st2 ev h
    exact clmm_backrun_ok_spec st pim pom nu ot tm0 p tick L tf pf ff ispl ifee
      ospl ofee b1 b2 sid now st2 ev h
  · intro st bm qm b1 b2 now st2 ev h
    exact pumpswap_backrun_sell_ok_spec st bm qm b1 b2 now st2 ev h

/-- Counterexample for C8 as stated: a PumpSwap sell back-run whose realized
output 150 exceeds the recorded input 100 reports profit 0, not the claimed
saturating difference 150 minus 100 equal 50. -/
theorem c8_counterexample :
    pumpswap_backrun_sell pending_record 4 3 0 150 11 =
      .ok ({ pending_record with is_complete := true },
        { sandwich_id := 9, profit := 0, input_amount := 100,
          output_amount := 150, timestamp := 11 }) ∧
    150 - 100 ≠ (0 : Nat) := by
  refine ⟨by rfl, by decide⟩

/-- Witness for C8: the CPMM base-input back-run on the profitable fixture over
the balanced test pool succeeds and reports profit 50 equal to the realized
output 150 minus the recorded input 100, marking the record complete. -/
theorem c8_witness :
    ({ profitable_record with is_complete := true } : SandwichState) =
      { profitable_record with is_complete := true } ∧
    ({ sandwich_id := 9, profit := (150 - 0) - 100, input_amount := 100,
       output_amount := 150 - 0, timestamp := 11 } : SandwichCompleteEvent) =
      { sandwich_id := 9,
        profit := (150 - 0) - profitable_record.frontrun_input_amount,
        input_amount := profitable_record.frontrun_input_amount,
        output_amount := 150 - 0, timestamp := 11 } :=
  ⟨(c8_profit_accounting.1 profitable_record cex_pool_args 4 3 0 150 9 11
      ({ profitable_record with is_complete := true })
      ({ sandwich_id := 9, profit := 50, input_amount := 100,
         output_amount := 150, timestamp := 11 }) (by rfl)).1 ▸ rfl,
    by
      have hspec := c8_profit_accounting.1 profitable_record cex_pool_args 4 3
        0 150 9 11
        ({ profitable_record with is_complete := true })
        ({ sandwich_id := 9, profit := 50, input_amount := 100,
           output_amount := 150, timestamp := 11 }) (by rfl)
      rw [← hspec.2]⟩

/-- C7: in each search-based planner (CPMM base-input, CPMM base-output, CLMM,
PumpSwap sell), when the bounded search ends with a best front-run amount below
the dust floor of 100 base units the planner fails with
InsufficientSandwichAmount, and accordingly a successful plan always carries an
amount of at least 100, so a sub-dust amount never produces a plan. -/
theorem c7_dust_floor :
    (∀ (a : CpmmArgs) (tin tmin tfee rin rout tact safe b p : Nat),
      cpmm_plan_context a tin tmin tfee = .ok (rin, rout, tact, safe) →
      cpmm_search_loop a.trade_fee_rate a.protocol_fee_rate a.fund_fee_rate
        rin rout safe tact 20 1 (rin / 10) (rin / 100) 0 = .ok (b, p) →
      b < 100 →
      cpmm_frontrun_plan a tin tmin tfee =
        .error (.code .InsufficientSandwichAmount)) ∧
    (∀ (a : CpmmArgs) (tin tmin tfee : Nat) (plan : CpmmPlan),
      cpmm_frontrun_plan a tin tmin tfee = .ok plan → 100 ≤ plan.amount) ∧
    (∀ (a : CpmmArgs) (tmax tout ofee ifee rin rout tao safe b p : Nat),
      cpmm_output_plan_prefix a tmax tout ofee ifee = .ok (rin, rout, tao, safe) →
      cpmm_output_search_loop a.trade_fee_rate a.protocol_fee_rate a.fund_fee_rate
        rin rout safe tao 20 1 (rout / 10) (rout / 100) 0 = .ok (b, p) →
      b < 100 →
      cpmm_frontrun_output_plan a tmax tout ofee ifee =
        .error (.code .InsufficientSandwichAmount)) ∧
    (∀ (a : CpmmArgs) (tmax tout ofee ifee : Nat) (plan : CpmmPlan),
      cpmm_frontrun_output_plan a tmax tout ofee ifee = .ok plan →
      100 ≤ plan.amount) ∧
    (∀ (a : PumpSwapSellArgs) (bin minq tfee rin rout tact safe b p : Nat),
      pumpswap_sell_plan_prefix a bin minq tfee = .ok (rin, rout, tact, safe) →
      cpmm_search_loop (pumpswap_fee_rates a).1 (pumpswap_fee_rates a).2.1
        (pumpswap_fee_rates a).2.2 rin rout safe tact
        20 1 (rin / 10) (rin / 100) 0 = .ok (b, p) →
      b < 100 →
      pumpswap_frontrun_sell_plan a bin minq tfee =
        .error (.code .InsufficientSandwichAmount)) ∧
    (∀ (a : PumpSwapSellArgs) (bin minq tfee : Nat) (plan : CpmmPlan),
      pumpswap_frontrun_sell_plan a bin minq tfee = .ok plan →
      100 ≤ plan.amount) ∧
    (∀ (nu ot ivm tm0 t thr lim : Nat) (tibi : Bool) (p : Nat) (tick : Int)
      (L tf pf ff ifee ofee tol b bp : Nat),
      nu > ot →
      calculate_clmm_slippage (if tibi then t - ifee else satAdd64 t ofee) thr tibi
        lim p tick L (decide (ivm = tm0)) tf pf ff = .ok tol →
      clmm_search_loop p tick L (if tibi then t - ifee else satAdd64 t ofee)
        (satMul128 tol 95 / 100) tibi (decide (ivm = tm0)) tf pf ff
        20 1 (satMul64 (if tibi then t - ifee else satAdd64 t ofee) 3)
        ((if tibi then t - ifee else satAdd64 t ofee) / 5) 0 = .ok (b, bp) →
      b < 100 →
      clmm_frontrun_plan nu ot ivm tm0 t thr lim tibi p tick L tf pf ff ifee ofee =
        .error (.code .InsufficientSandwichAmount)) ∧
    (∀ (nu ot ivm tm0 t thr lim : Nat) (tibi : Bool) (p : Nat) (tick : Int)
      (L tf pf ff ifee ofee amt : Nat),
      clmm_frontrun_plan nu ot ivm tm0 t thr lim tibi p tick L tf pf ff ifee ofee =
        .ok amt → 100 ≤ amt) := by
  refine ⟨?_, ?_, ?_, ?_, ?_, ?_, ?_, ?_⟩
  · intro a tin tmin tfee rin rout tact safe b p hpre hloop hb
    have hb64 : b < U64 := lt_trans hb (by norm_num [U64])
    simp only [cpmm_frontrun_plan, calculate_optimal_sandwich_amount, bind,
      Except.bind, hpre, hloop, pure, Except.pure, if_pos hb64, if_pos hb]
  · intro a tin tmin tfee plan h
    simp only [cpmm_frontrun_plan] at h
    obtain ⟨c, hc, h⟩ := bind_ok_inv _ _ _ h
    obtain ⟨opt, hopt, h⟩ := bind_ok_inv _ _ _ h
    split_ifs at h with hlt
    obtain ⟨mo, hmo, h⟩ := bind_ok_inv _ _ _ h
    simp at h
    rw [← h]
    exact Nat.not_lt.mp hlt
  · intro a tmax tout ofee ifee rin rout tao safe b p hpre hloop hb
    have hb64 : b < U64 := lt_trans hb (by norm_num [U64])
    simp only [cpmm_frontrun_output_plan, calculate_optimal_sandwich_output_amount,
      bind, Except.bind, hpre, hloop, pure, Except.pure, if_pos hb64, if_pos hb]
  · intro a tmax tout ofee ifee plan h
    simp only [cpmm_frontrun_output_plan] at h
    obtain ⟨c, hc, h⟩ := bind_ok_inv _ _ _ h
    obtain ⟨opt, hopt, h⟩ := bind_ok_inv _ _ _ h
    split_ifs at h with hlt
    obtain ⟨mo, hmo, h⟩ := bind_ok_inv _ _ _ h
    simp at h
    rw [← h]
    exact Nat.not_lt.mp hlt
  · intro a bin minq tfee rin rout tact safe b p hpre hloop hb
    have hb64 : b < U64 := lt_trans hb (by norm_num [U64])
    simp only [pumpswap_frontrun_sell_plan, calculate_optimal_sandwich_amount,
      bind, Except.bind, hpre, hloop, pure, Except.pure, if_pos hb64, if_pos hb]
  · intro a bin minq tfee plan h
    simp only [pumpswap_frontrun_sell_plan] at h
    obtain ⟨c, hc, h⟩ := bind_ok_inv _ _ _ h
    obtain ⟨opt, hopt, h⟩ := bind_ok_inv _ _ _ h
    split_ifs at h with hlt
    obtain ⟨mo, hmo, h⟩ := bind_ok_inv _ _ _ h
    simp at h
    rw [← h]
    exact Nat.not_lt.mp hlt
  · intro nu ot ivm tm0 t thr lim tibi p tick L tf pf ff ifee ofee tol b bp
      hot hslip hloop hb
    by_cases hp100 : bp < 100
    · simp only [clmm_frontrun_plan, calculate_optimal_clmm_sandwich_amount, bind,
        Except.bind, if_neg (not_not_intro hot), hslip, hloop, if_pos hp100]
    · simp only [clmm_frontrun_plan, calculate_optimal_clmm_sandwich_amount, bind,
        Except.bind, if_neg (not_not_intro hot), hslip, hloop, if_neg hp100,
        if_pos hb]
  · intro nu ot ivm tm0 t thr lim tibi p tick L tf pf ff ifee ofee amt h
    simp only [clmm_frontrun_plan] at h
    split_ifs at h with hot
    all_goals (
      obtain ⟨tol, htol, h⟩ := bind_ok_inv _ _ _ h
      obtain ⟨opt, hopt, h⟩ := bind_ok_inv _ _ _ h
      split_ifs at h with hlt
      simp at h
      rw [← h]
      exact Nat.not_lt.mp hlt)

/-- Witness for C7: concrete sub-dust scenarios for all four planners. On the
small balanced pools every candidate is either rejected by the zero ceiling or
yields zero profit, so the search keeps its sub-100 starting estimate and each
planner fails with InsufficientSandwichAmount. -/
theorem c7_witness :
    cpmm_frontrun_plan dust_pool_args 100 98 0 =
      .error (.code .InsufficientSandwichAmount) ∧
    cpmm_frontrun_output_plan dust_pool_args 103 100 0 0 =
      .error (.code .InsufficientSandwichAmount) ∧
    pumpswap_frontrun_sell_plan dust_pumpswap_args 100 100 0 =
      .error (.code .InsufficientSandwichAmount) ∧
    clmm_frontrun_plan 5 1 7 7 400 399 0 true (2 ^ 64) 0 (2 ^ 32) 0 0 0 0 0 =
      .error (.code .InsufficientSandwichAmount) :=
  ⟨c7_dust_floor.1 dust_pool_args 100 98 0 5000 5000 100 0 50 0 (by rfl) (by rfl)
      (by decide),
    c7_dust_floor.2.2.1 dust_pool_args 103 100 0 0 5000 5000 100 0 50 0 (by rfl)
      (by rfl) (by decide),
    c7_dust_floor.2.2.2.2.1 dust_pumpswap_args 100 100 0 4998 4998 100 0 49 0
      (by rfl) (by rfl) (by decide),
    c7_dust_floor.2.2.2.2.2.2.1 5 1 7 7 400 399 0 true (2 ^ 64) 0 (2 ^ 32) 0 0 0
      0 0 10 80 0 (by decide) (by rfl) (by rfl) (by decide)⟩

theorem cpmm_search_loop_best_inv (tf pf ff rin rout safe target : Nat) :
    ∀ (fuel low high best bp b p : Nat),
      cpmm_search_loop tf pf ff rin rout safe target fuel low high best bp =
        .ok (b, p) →
      b = best ∨ (b ≤ high ∧
        cpmm_candidate_within tf pf ff rin rout safe target b) := by
  intro fuel
  induction fuel with
  | zero =>
      intro low high best bp b p h
      simp [cpmm_search_loop] at h
      exact .inl h.1.symm
  | succ n ih =>
      intro low high best bp b p h
      simp only [cpmm_search_loop] at h
      split_ifs at h with hlh
      · simp at h
        exact .inl h.1.symm
      · have hmh : (low + high) / 2 < high := by omega
        cases hfr : CurveCalculator.swap_base_input ((low + high) / 2) rin rout
            tf pf ff with
        | none => rw [hfr] at h; simp at h
        | some fr =>
          simp only [hfr] at h
          cases htb : CurveCalculator.swap_base_input target rin rout tf pf ff with
          | none => rw [htb] at h; simp at h
          | some tb =>
            simp only [htb] at h
            cases hta : CurveCalculator.swap_base_input target
                (rin + fr.source_amount_swapped)
                (wsub128 rout fr.destination_amount_swapped) tf pf ff with
            | none => rw [hta] at h; simp at h
            | some ta =>
              simp only [hta] at h
              by_cases h0 : tb.destination_amount_swapped = 0
              · rw [if_pos h0] at h; simp at h
              · rw [if_neg h0] at h
                by_cases himp : wmul128 (wsub128 tb.destination_amount_swapped
                    ta.destination_amount_swapped) 10000 /
                    tb.destination_amount_swapped ≤ safe
                · rw [if_pos himp] at h
                  cases hbr : CurveCalculator.swap_base_input
                      fr.destination_amount_swapped
                      (wsub128 (wsub128 rout fr.destination_amount_swapped)
                        ta.destination_amount_swapped)
                      (rin + fr.source_amount_swapped + target) tf pf ff with
                  | none => rw [hbr] at h; simp at h
                  | some br =>
                    simp only [hbr] at h
                    have hwithin : cpmm_candidate_within tf pf ff rin rout safe
                        target ((low + high) / 2) :=
                      ⟨fr, tb, ta, hfr, htb, hta, h0, himp⟩
                    by_cases hup : br.destination_amount_swapped -
                        (low + high) / 2 > bp
                    · rw [if_pos hup, if_pos hup] at h
                      split_ifs at h with hpos
                      · rcases ih _ _ _ _ _ _ h with hb | hw
                        · exact .inr ⟨hb ▸ le_of_lt hmh, hb ▸ hwithin⟩
                        · exact .inr hw
                      · rcases ih _ _ _ _ _ _ h with hb | hw
                        · exact .inr ⟨hb ▸ le_of_lt hmh, hb ▸ hwithin⟩
                        · exact .inr ⟨le_trans hw.1 (by omega), hw.2⟩
                    · rw [if_neg hup, if_neg hup] at h
                      split_ifs at h with hpos
                      · rcases ih _ _ _ _ _ _ h with hb | hw
                        · exact .inl hb
                        · exact .inr hw
                      · rcases ih _ _ _ _ _ _ h with hb | hw
                        · exact .inl hb
                        · exact .inr ⟨le_trans hw.1 (by omega), hw.2⟩
                · rw [if_neg himp] at h
                  rcases ih _ _ _ _ _ _ h with hb | hw
                  · exact .inl hb
                  · exact .inr ⟨le_trans hw.1 (by omega), hw.2⟩

theorem cpmm_search_loop_error_cases (tf pf ff rin rout safe target : Nat) :
    ∀ (fuel low high best bp : Nat) (e : Fail),
      cpmm_search_loop tf pf ff rin rout safe target fuel low high best bp =
        .error e →
      e = .code .CalculationFailure ∨ e = .panic := by
  intro fuel
  induction fuel with
  | zero =>
      intro low high best bp e h
      simp [cpmm_search_loop] at h
  | succ n ih =>
      intro low high best bp e h
      simp only [cpmm_search_loop] at h
      by_cases hlh : low ≥ high
      · rw [if_pos hlh] at h
        exact absurd h (by simp)
      · rw [if_neg hlh] at h
        cases hfr : CurveCalculator.swap_base_input ((low + high) / 2) rin rout
              tf pf ff with
          | none =>
            rw [hfr] at h
            injection h with he
            exact .inl he.symm
          | some fr =>
            simp only [hfr] at h
            cases htb : CurveCalculator.swap_base_input target rin rout tf pf ff with
            | none =>
              rw [htb] at h
              injection h with he
              exact .inl he.symm
            | some tb =>
              simp only [htb] at h
              cases hta : CurveCalculator.swap_base_input target
                  (rin + fr.source_amount_swapped)
                  (wsub128 rout fr.destination_amount_swapped) tf pf ff with
              | none =>
                rw [hta] at h
                injection h with he
                exact .inl he.symm
              | some ta =>
                simp only [hta] at h
                by_cases h0 : tb.destination_amount_swapped = 0
                · rw [if_pos h0] at h
                  injection h with he
                  exact .inr he.symm
                · rw [if_neg h0] at h
                  by_cases himp : wmul128 (wsub128 tb.destination_amount_swapped
                      ta.destination_amount_swapped) 10000 /
                      tb.destination_amount_swapped ≤ safe
                  · rw [if_pos himp] at h
                    cases hbr : CurveCalculator.swap_base_input
                        fr.destination_amount_swapped
                        (wsub128 (wsub128 rout fr.destination_amount_swapped)
                          ta.destination_amount_swapped)
                        (rin + fr.source_amount_swapped + target) tf pf ff with
                    | none =>
                      rw [hbr] at h
                      injection h with he
                      exact .inl he.symm
                    | some br =>
                      simp only [hbr] at h
                      split_ifs at h <;> exact ih _ _ _ _ _ h
                  · rw [if_neg himp] at h
                    exact ih _ _ _ _ _ h

theorem cpmm_resolve_reserves_in_le (a : CpmmArgs) (rin rout : Nat)
    (h : cpmm_resolve_reserves a = .ok (rin, rout)) :
    rin ≤ a.input_vault_amount := by
  simp only [cpmm_resolve_reserves] at h
  split_ifs at h with h1 h2
  · obtain ⟨v, hv, h⟩ := bind_ok_inv _ _ _ h
    simp only [vault_amount_without_fee] at hv
    split_ifs at hv with hf
    injection hv with hv
    injection h with h
    rw [← hv] at h
    simp at h
    omega
  · obtain ⟨v, hv, h⟩ := bind_ok_inv _ _ _ h
    simp only [vault_amount_without_fee] at hv
    split_ifs at hv with hf
    injection hv with hv
    injection h with h
    rw [← hv] at h
    simp at h
    omega

theorem cpmm_plan_context_error_cases (a : CpmmArgs) (tin tmin tfee : Nat) (e : Fail)
    (h : cpmm_plan_context a tin tmin tfee = .error e) :
    e = .code .InvalidVault ∨ e = .panic ∨ e = .code .CalculationFailure := by
  simp only [cpmm_plan_context] at h
  rcases bind_error_inv _ _ _ h with hr | ⟨r, -, h⟩
  · rcases cpmm_resolve_reserves_error_cases _ _ hr with h1 | h1
    · exact .inl h1
    · exact .inr (.inl h1)
  · rcases bind_error_inv _ _ _ h with he | ⟨ex, -, h⟩
    · exact .inr (.inr (calculate_expected_output_error_cases _ _ _ _ _ _ _ he))
    · split_ifs at h
      all_goals injection h with he
      all_goals exact .inr (.inr he.symm)

theorem calculate_optimal_sandwich_amount_error_cases
    (rin rout safe tin tact tf pf ff : Nat) (e : Fail)
    (h : calculate_optimal_sandwich_amount rin rout safe tin tact tf pf ff =
      .error e) :
    e = .code .CalculationFailure ∨ e = .panic := by
  simp only [calculate_optimal_sandwich_amount] at h
  rcases bind_error_inv _ _ _ h with hr | ⟨r, -, h⟩
  · exact cpmm_search_loop_error_cases _ _ _ _ _ _ _ _ _ _ _ _ _ hr
  · simp [pure, Except.pure] at h

theorem calculate_minimum_out_for_sandwich_error_cases
    (amt rin rout tf pf ff : Nat) (e : Fail)
    (h : calculate_minimum_out_for_sandwich amt rin rout tf pf ff = .error e) :
    e = .code .CalculationFailure := by
  simp only [calculate_minimum_out_for_sandwich] at h
  rcases bind_error_inv _ _ _ h with hr | ⟨r, -, h⟩
  · exact calculate_expected_output_error_cases _ _ _ _ _ _ _ hr
  · simp [pure, Except.pure] at h

/-- C3: the CPMM front-run planner computes the victim tolerance as
(expected output minus declared minimum out) times 10000 over expected output,
scales it by 95 over 100 into the safety ceiling, and every successful plan
returns an amount that is either a bounded-search candidate whose recomputed
post-front-run victim price impact is within that ceiling, or the initial
estimate reserve_in over 100, which the search returns untested when no
candidate ever improves on a zero best profit. -/
theorem c3_safety_ceiling (a : CpmmArgs) (tin tmin tfee : Nat) (plan : CpmmPlan)
    (hin : a.input_vault_amount < U64)
    (h : cpmm_frontrun_plan a tin tmin tfee = .ok plan) :
    ∃ rin rout safe expected,
      cpmm_plan_context a tin tmin tfee = .ok (rin, rout, tin - tfee, safe) ∧
      calculate_expected_output (tin - tfee) rin rout a.trade_fee_rate
        a.protocol_fee_rate a.fund_fee_rate = .ok expected ∧
      0 < expected ∧
      safe = satMul128 ((expected - tmin) * 10000 / expected) 95 / 100 ∧
      (cpmm_candidate_within a.trade_fee_rate a.protocol_fee_rate a.fund_fee_rate
          rin rout safe (tin - tfee) plan.amount ∨
        plan.amount = rin / 100) := by
  simp only [cpmm_frontrun_plan] at h
  obtain ⟨c, hc, h⟩ := bind_ok_inv _ _ _ h
  obtain ⟨opt, hopt, h⟩ := bind_ok_inv _ _ _ h
  split_ifs at h with hlt
  obtain ⟨mo, hmo, h⟩ := bind_ok_inv _ _ _ h
  injection h with h
  have hpa : plan.amount = opt := by rw [← h]
  have hc2 := hc
  simp only [cpmm_plan_context] at hc2
  obtain ⟨r, hr, hc2⟩ := bind_ok_inv _ _ _ hc2
  obtain ⟨rin, rout⟩ := r
  obtain ⟨expected, hexp, hc2⟩ := bind_ok_inv _ _ _ hc2
  split_ifs at hc2 with hgt
  injection hc2 with hc2
  subst hc2
  simp only [calculate_optimal_sandwich_amount] at hopt
  obtain ⟨rr, hrr, hopt⟩ := bind_ok_inv _ _ _ hopt
  obtain ⟨b, p⟩ := rr
  simp only [pure, Except.pure] at hopt
  injection hopt with hopt
  have hU : rin < U64 :=
    lt_of_le_of_lt (cpmm_resolve_reserves_in_le a rin rout hr) hin
  rcases cpmm_search_loop_best_inv a.trade_fee_rate a.protocol_fee_rate
      a.fund_fee_rate rin rout _ _ 20 1 (rin / 10) (rin / 100) 0 b p hrr
    with hb | ⟨hble, hw⟩
  · refine ⟨rin, rout, _, expected, hc, hexp, hgt, rfl, .inr ?_⟩
    have hbU : b < U64 := by
      subst hb
      exact lt_of_le_of_lt (Nat.div_le_self _ _) hU
    rw [if_pos hbU] at hopt
    rw [hpa, ← hopt, hb]
  · refine ⟨rin, rout, _, expected, hc, hexp, hgt, rfl, .inl ?_⟩
    have hbU : b < U64 :=
      lt_of_le_of_lt (le_trans hble (Nat.div_le_self _ _)) hU
    rw [if_pos hbU] at hopt
    rw [hpa, ← hopt]
    exact hw

/-- C3 counterexample: on a fee-free 100000 per 100000 pool with victim intent
1000 in for at least 990 out, the tolerance and ceiling are zero, yet the
planner succeeds with the untested initial estimate 1000 whose recomputed
post-front-run victim price impact, in the loop arithmetic, is 202 basis
points, exceeding the zero ceiling. -/
theorem c3_counterexample :
    cpmm_plan_context cex_pool_args 1000 990 0 = .ok (100000, 100000, 1000, 0) ∧
    cpmm_frontrun_plan cex_pool_args 1000 990 0 =
      .ok { amount := 1000, limit := 940 } ∧
    calculate_expected_output 1000 100000 100000 cex_pool_args.trade_fee_rate
      cex_pool_args.protocol_fee_rate cex_pool_args.fund_fee_rate = .ok 990 ∧
    calculate_expected_output 1000 (100000 + 1000) (wsub128 100000 990)
      cex_pool_args.trade_fee_rate cex_pool_args.protocol_fee_rate
      cex_pool_args.fund_fee_rate = .ok 970 ∧
    ¬ wmul128 (wsub128 990 970) 10000 / 990 ≤ 0 :=
  ⟨rfl, rfl, rfl, rfl, by decide⟩

theorem c3_witness :
    cex_pool_args.input_vault_amount < U64 ∧
    cpmm_frontrun_plan cex_pool_args 100 98 0 =
      .ok { amount := 1000, limit := 940 } ∧
    ∃ rin rout safe expected,
      cpmm_plan_context cex_pool_args 100 98 0 = .ok (rin, rout, 100 - 0, safe) ∧
      calculate_expected_output (100 - 0) rin rout cex_pool_args.trade_fee_rate
        cex_pool_args.protocol_fee_rate cex_pool_args.fund_fee_rate =
          .ok expected ∧
      0 < expected ∧
      safe = satMul128 ((expected - 98) * 10000 / expected) 95 / 100 ∧
      (cpmm_candidate_within cex_pool_args.trade_fee_rate
          cex_pool_args.protocol_fee_rate cex_pool_args.fund_fee_rate
          rin rout safe (100 - 0)
          (CpmmPlan.mk 1000 940).amount ∨
        (CpmmPlan.mk 1000 940).amount = rin / 100) :=
  ⟨by norm_num [cex_pool_args, U64], rfl,
    c3_safety_ceiling cex_pool_args 100 98 0 { amount := 1000, limit := 940 }
      (by norm_num [cex_pool_args, U64]) rfl⟩

theorem amm_compute_none (fee minp : ℝ) :
    compute_front_run_base_in_with_fee 100 1125 100 0 fee minp = none := by
  simp only [compute_front_run_base_in_with_fee]
  norm_num

theorem amm_compute_concrete (fee : ℝ) (hf : fee = 0) (minp : ℝ)
    (hm : minp ≤ 52 / 29) :
    compute_front_run_base_in_with_fee 100 1125 100 400 fee minp =
      some (25, 224, 52 / 29) := by
  subst hf
  simp only [compute_front_run_base_in_with_fee]
  norm_num
  rw [show (19600000000 : ℝ) = 140000 ^ 2 by norm_num, Real.sqrt_sq (by norm_num)]
  norm_num [U64]
  exact ⟨hm, rfl, rfl⟩

/-- C4: profit-floor behaviour of the two front-run strategies. The closed-form
planner honours the floor: a successful computation returns a profit ratio at
least the requested minimum, and when it returns none the Raydium AMM front-run
handler fails with UnprofitableSandwich. The bounded-search CPMM planner, by
contrast, applies no profit floor at all: it can never fail with
UnprofitableSandwich on any input. -/
theorem c4_profit_floor :
    (∀ (x0 y0 tin tmin : Nat) (fee minp : ℝ) (ain aout : Nat) (pct : ℝ),
      compute_front_run_base_in_with_fee x0 y0 tin tmin fee minp =
        some (ain, aout, pct) → minp ≤ pct) ∧
    (∀ (prev : Option SandwichState) (pc pq tin tmin : Nat) (tf sf : ℝ)
        (sb sa tb sid bm : Nat) (now : Int) (bp : Nat),
      compute_front_run_base_in_with_fee pc pq tin tmin (sf + tf * 0.16)
        0.005 = none →
      amm_frontrun_swap_base_in prev pc pq tin tmin tf sf sb sa tb sid bm
        now bp = .error (.code .UnprofitableSandwich)) ∧
    (∀ (a : CpmmArgs) (tin tmin tfee : Nat),
      cpmm_frontrun_plan a tin tmin tfee ≠
        .error (.code .UnprofitableSandwich)) := by
  refine ⟨?_, ?_, ?_⟩
  · intro x0 y0 tin tmin fee minp ain aout pct h
    simp only [compute_front_run_base_in_with_fee] at h
    split_ifs at h with h1 h2 h3 h4 h5
    injection h with he
    rw [Prod.mk.injEq, Prod.mk.injEq] at he
    exact he.2.2 ▸ le_of_not_lt h5
  · intro prev pc pq tin tmin tf sf sb sa tb sid bm now bp h
    simp only [amm_frontrun_swap_base_in, h]
  · intro a tin tmin tfee h
    simp only [cpmm_frontrun_plan] at h
    rcases bind_error_inv _ _ _ h with hc | ⟨c, -, h⟩
    · rcases cpmm_plan_context_error_cases _ _ _ _ _ hc with h1 | h1 | h1 <;>
        simp_all
    · rcases bind_error_inv _ _ _ h with ho | ⟨opt, -, h⟩
      · rcases calculate_optimal_sandwich_amount_error_cases _ _ _ _ _ _ _ _ _ ho
          with h1 | h1 <;> simp_all
      · split_ifs at h with hlt
        · simp at h
        · rcases bind_error_inv _ _ _ h with hm | ⟨mo, -, h⟩
          · have := calculate_minimum_out_for_sandwich_error_cases _ _ _ _ _ _ _ hm
            simp_all
          · simp at h

/-- C4 counterexample: on the fee-free 100000 per 100000 pool with victim
intent 1000 in for at least 990 out, the bounded search ends with best profit
zero, meaning no candidate cleared any profit floor, yet the planner succeeds
with the initial estimate instead of failing with UnprofitableSandwich. -/
theorem c4_counterexample :
    cpmm_search_loop 0 0 0 100000 100000 0 1000 20 1 10000 1000 0 =
      .ok (1000, 0) ∧
    cpmm_frontrun_plan cex_pool_args 1000 990 0 =
      .ok { amount := 1000, limit := 940 } :=
  ⟨rfl, rfl⟩

theorem c4_witness :
    (5 / 1000 : ℝ) ≤ 52 / 29 ∧
    amm_frontrun_swap_base_in none 100 1125 100 0 0 0 0 0 0 9 3 11 1 =
      .error (.code .UnprofitableSandwich) ∧
    cpmm_frontrun_plan cex_pool_args 1000 990 0 ≠
      .error (.code .UnprofitableSandwich) :=
  ⟨c4_profit_floor.1 100 1125 100 400 0 (5 / 1000) 25 224 (52 / 29)
      (amm_compute_concrete 0 rfl (5 / 1000) (by norm_num)),
    c4_profit_floor.2.1 none 100 1125 100 0 0 0 0 0 0 9 3 11 1
      (amm_compute_none _ _),
    c4_profit_floor.2.2 cex_pool_args 1000 990 0⟩

set_option maxHeartbeats 1000000 in
/-- C9: the PumpFun closed-form planner on the spec hand-check scenario with
zero fee, token reserve 100, SOL reserve 1000, victim intent 5 tokens out for
at most 60 SOL in: the quadratic root is adopted, the floored front-run output
is 6 tokens for a floored 65 SOL input, and the profit ratio is within 1/500 of
0.112 and above the 0.005 floor, so the plan is accepted. -/
theorem c9_pumpfun_scenario :
    ∃ pct : ℝ,
      compute_front_run_with_fee 100 1000 5 60 0 0.005 = some (6, 65, pct) ∧
      |pct - 0.112| < 1 / 500 ∧ (0.005 : ℝ) ≤ pct := by
  have hsqnn : (0:ℝ) ≤ Real.sqrt 120090000 := Real.sqrt_nonneg _
  have hsq : Real.sqrt 120090000 ^ 2 = 120090000 := Real.sq_sqrt (by norm_num)
  have hlb : (10958.55:ℝ) < Real.sqrt 120090000 := by nlinarith
  have hub : Real.sqrt 120090000 < 10958.56 := by nlinarith
  have hq1 : (1065.855:ℝ) < ((-300 + Real.sqrt 120090000) / 10) := by linarith
  have hq2 : ((-300 + Real.sqrt 120090000) / 10) < 1065.856 := by linarith
  have hq0 : (0:ℝ) < ((-300 + Real.sqrt 120090000) / 10) := by linarith
  have hw1 : (93.8213:ℝ) < (100000 / ((-300 + Real.sqrt 120090000) / 10)) := by
    rw [lt_div_iff hq0]
    linarith
  have hw2 : (100000 / ((-300 + Real.sqrt 120090000) / 10)) < (93.8215:ℝ) := by
    rw [div_lt_iff hq0]
    linarith
  have hx0 : (0:ℝ) < (100000 / ((-300 + Real.sqrt 120090000) / 10)) - 5 := by linarith
  have hy1 : (1125.85:ℝ) < (100000 / ((100000 / ((-300 + Real.sqrt 120090000) / 10)) - 5)) := by
    rw [lt_div_iff hx0]
    linarith
  have hy2 : (100000 / ((100000 / ((-300 + Real.sqrt 120090000) / 10)) - 5)) < (1125.86:ℝ) := by
    rw [div_lt_iff hx0]
    linarith
  have hd0 : (0:ℝ) < ((-300 + Real.sqrt 120090000) / 10) - 1000 := by linarith
  have hp1 : (0.110:ℝ) < (((100000 / ((100000 / ((-300 + Real.sqrt 120090000) / 10)) - 5)) - 20000 / 19 - (((-300 + Real.sqrt 120090000) / 10) - 1000)) / (((-300 + Real.sqrt 120090000) / 10) - 1000)) := by
    rw [lt_div_iff hd0]
    linarith
  have hp2 : (((100000 / ((100000 / ((-300 + Real.sqrt 120090000) / 10)) - 5)) - 20000 / 19 - (((-300 + Real.sqrt 120090000) / 10) - 1000)) / (((-300 + Real.sqrt 120090000) / 10) - 1000)) < (0.114:ℝ) := by
    rw [div_lt_iff hd0]
    linarith
  have hf1 : ⌊(100:ℝ) - (100000 / ((-300 + Real.sqrt 120090000) / 10))⌋ = 6 := by
    rw [Int.floor_eq_iff]
    constructor
    · push_cast
      linarith
    · push_cast
      linarith
  have hf2 : ⌊((-300 + Real.sqrt 120090000) / 10)⌋ = 1065 := by
    rw [Int.floor_eq_iff]
    constructor
    · push_cast
      linarith
    · push_cast
      linarith
  refine ⟨(((100000 / ((100000 / ((-300 + Real.sqrt 120090000) / 10)) - 5)) - 20000 / 19 - (((-300 + Real.sqrt 120090000) / 10) - 1000)) / (((-300 + Real.sqrt 120090000) / 10) - 1000)), ?_, ?_, ?_⟩
  · simp only [compute_front_run_with_fee]
    norm_num
    refine ⟨by linarith, by linarith, by linarith, by linarith, ?_, ?_⟩
    · rw [hf1]
      norm_num [U64]
      rfl
    · rw [hf2]
      norm_num [U64]
      rfl
  · rw [abs_sub_lt_iff]
    constructor
    · linarith
    · linarith
  · linarith

theorem pumpfun_compute_concrete :
    compute_front_run_with_fee 99 100 5 1000 0.01 0.005 =
      some (89, 898, 504749 / 465550) := by
  simp only [compute_front_run_with_fee]
  norm_num
  rw [show (220522500 : ℝ) = 14850 ^ 2 by norm_num, Real.sqrt_sq (by norm_num)]
  norm_num [U64]
  exact ⟨rfl, rfl⟩

theorem amm_frontrun_concrete :
    amm_frontrun_swap_base_in none 100 1125 100 400 0 0 7 3 0 9 3 11 1 =
      .ok amm_reset_record := by
  simp only [amm_frontrun_swap_base_in,
    amm_compute_concrete (0 + 0 * 0.16) (by norm_num) 0.005 (by norm_num)]
  rfl

theorem pumpfun_frontrun_concrete :
    pumpfun_frontrun_buy none 99 100 5 1000 5 2 9 3 11 1 =
      .ok pumpfun_record := by
  simp only [pumpfun_frontrun_buy, pumpfun_compute_concrete]
  norm_num [pumpfun_record, SandwichState.zeroed]

/-- C2: refuted by the code: the Raydium AMM front-run account uses
init_if_needed with no completion-flag constraint and the handler
unconditionally rewrites every field with is_complete false, so invoking it for
an id whose record is already finalized reuses the record and reverts its flag
from true to false instead of failing with SandwichAlreadyCompleted. -/
theorem c2_completed_record_reset :
    completed_record.is_complete = true ∧
    amm_frontrun_swap_base_in (some completed_record) 100 1125 100 400 0 0
        0 0 0 9 3 11 1 = .ok amm_reset_record ∧
    amm_reset_record.is_complete = false :=
  ⟨rfl,
    by
      simp only [amm_frontrun_swap_base_in,
        amm_compute_concrete (0 + 0 * 0.16) (by norm_num) 0.005 (by norm_num)]
      rfl,
    rfl⟩

/-- C10: in the Raydium AMM and PumpFun front-run handlers the stored
frontrun_input_amount is the source-account balance after the swap minus the
balance before it, as a saturating subtraction; whenever the front-run strictly
decreases that balance the stored amount is therefore zero, and the AMM
back-run reports input_amount as the stored value and profit as its realized
output delta minus the stored value, saturating. -/
theorem c10_stored_input_accounting :
    (∀ (prev : Option SandwichState) (pc pq tin tmin : Nat) (tf sf : ℝ)
        (sb sa tb sid bm : Nat) (now : Int) (bp : Nat) (st : SandwichState),
      amm_frontrun_swap_base_in prev pc pq tin tmin tf sf sb sa tb sid bm
          now bp = .ok st →
      st.frontrun_input_amount = sa - sb) ∧
    (∀ (prev : Option SandwichState) (vt vs t m lb la sid mint : Nat)
        (now : Int) (bp : Nat) (st : SandwichState),
      pumpfun_frontrun_buy prev vt vs t m lb la sid mint now bp = .ok st →
      st.frontrun_input_amount = la - lb) ∧
    (∀ (prev : Option SandwichState) (pc pq tin tmin : Nat) (tf sf : ℝ)
        (sb sa tb sid bm : Nat) (now : Int) (bp : Nat) (st : SandwichState),
      sa < sb →
      amm_frontrun_swap_base_in prev pc pq tin tmin tf sf sb sa tb sid bm
          now bp = .ok st →
      st.frontrun_input_amount = 0) ∧
    (∀ (prev : Option SandwichState) (vt vs t m lb la sid mint : Nat)
        (now : Int) (bp : Nat) (st : SandwichState),
      la < lb →
      pumpfun_frontrun_buy prev vt vs t m lb la sid mint now bp = .ok st →
      st.frontrun_input_amount = 0) ∧
    (∀ (st : SandwichState) (pm tb sa sid : Nat) (now : Int)
        (st2 : SandwichState) (ev : SandwichCompleteEvent),
      amm_backrun_swap_base_in st pm tb sa sid now = .ok (st2, ev) →
      ev.input_amount = st.frontrun_input_amount ∧
      ev.profit = (sa - tb) - st.frontrun_input_amount) := by
  have h1 : ∀ (prev : Option SandwichState) (pc pq tin tmin : Nat) (tf sf : ℝ)
      (sb sa tb sid bm : Nat) (now : Int) (bp : Nat) (st : SandwichState),
      amm_frontrun_swap_base_in prev pc pq tin tmin tf sf sb sa tb sid bm
          now bp = .ok st →
      st.frontrun_input_amount = sa - sb := by
    intro prev pc pq tin tmin tf sf sb sa tb sid bm now bp st h
    simp only [amm_frontrun_swap_base_in] at h
    cases hm : compute_front_run_base_in_with_fee pc pq tin tmin
        (sf + tf * 0.16) 0.005 with
    | none => rw [hm] at h; simp at h
    | some pl =>
      simp only [hm] at h
      injection h with h
      rw [← h]
  have h2 : ∀ (prev : Option SandwichState) (vt vs t m lb la sid mint : Nat)
      (now : Int) (bp : Nat) (st : SandwichState),
      pumpfun_frontrun_buy prev vt vs t m lb la sid mint now bp = .ok st →
      st.frontrun_input_amount = la - lb := by
    intro prev vt vs t m lb la sid mint now bp st h
    simp only [pumpfun_frontrun_buy] at h
    split_ifs at h with hc
    cases hm : compute_front_run_with_fee vt vs t m 0.01 0.005 with
    | none => rw [hm] at h; simp at h
    | some pl =>
      simp only [hm] at h
      injection h with h
      rw [← h]
  refine ⟨h1, h2, ?_, ?_, ?_⟩
  · intro prev pc pq tin tmin tf sf sb sa tb sid bm now bp st hlt h
    rw [h1 prev pc pq tin tmin tf sf sb sa tb sid bm now bp st h]
    omega
  · intro prev vt vs t m lb la sid mint now bp st hlt h
    rw [h2 prev vt vs t m lb la sid mint now bp st h]
    omega
  · intro st pm tb sa sid now st2 ev h
    obtain ⟨-, hev⟩ := amm_backrun_ok_spec st pm tb sa sid now st2 ev h
    rw [hev]
    exact ⟨rfl, rfl⟩

theorem c10_witness :
    amm_reset_record.frontrun_input_amount = 3 - 7 ∧
    pumpfun_record.frontrun_input_amount = 2 - 5 ∧
    amm_reset_record.frontrun_input_amount = 0 ∧
    pumpfun_record.frontrun_input_amount = 0 ∧
    (SandwichCompleteEvent.mk 9 ((200 - 10) - 100) 100 (200 - 10)
        11).input_amount = pending_record.frontrun_input_amount ∧
    (SandwichCompleteEvent.mk 9 ((200 - 10) - 100) 100 (200 - 10)
        11).profit = (200 - 10) - pending_record.frontrun_input_amount :=
  ⟨c10_stored_input_accounting.1 none 100 1125 100 400 0 0 7 3 0 9 3 11 1
      amm_reset_record amm_frontrun_concrete,
    c10_stored_input_accounting.2.1 none 99 100 5 1000 5 2 9 3 11 1
      pumpfun_record pumpfun_frontrun_concrete,
    c10_stored_input_accounting.2.2.1 none 100 1125 100 400 0 0 7 3 0 9 3 11 1
      amm_reset_record (by norm_num) amm_frontrun_concrete,
    c10_stored_input_accounting.2.2.2.1 none 99 100 5 1000 5 2 9 3 11 1
      pumpfun_record (by norm_num) pumpfun_frontrun_concrete,
    (c10_stored_input_accounting.2.2.2.2 pending_record 99 10 200 9 11
      { pending_record with is_complete := true }
      (SandwichCompleteEvent.mk 9 ((200 - 10) - 100) 100 (200 - 10) 11)
      rfl).1,
    (c10_stored_input_accounting.2.2.2.2 pending_record 99 10 200 9 11
      { pending_record with is_complete := true }
      (SandwichCompleteEvent.mk 9 ((200 - 10) - 100) 100 (200 - 10) 11)
      rfl).2⟩

end SandwichSwap
